import Mathlib

/-! RedChat client (`src/App.js`): a shallow embedding

The React component `App` keeps its state in `useState` cells and changes it
only inside socket-event handlers and user-action handlers.  Each handler is
embedded as a pure function from the state before the handler to the state
after it, together with the list of events it emits on the socket.

* a `useState` cell is a field of `AppState`, with the source's name;
* `setX(v)` is a record update, `setX(prev => f(prev))` applies `f` to the field;
* `socket.emit(name, payload)` appends an `Emit` to the handler's output;
* `window.confirm(text)` is an argument `confirm` of the handler, giving the
  user's answer to the text shown;
* the timers started by `showError` / `showSuccess` / `copyRoomId` fire later,
  as actions of their own (`Action.errorTimeout`, ...).
-/

namespace RedChat

/-! ## JavaScript string built-ins used by the handlers -/

/-- Code points removed by `String.prototype.trim`: ECMAScript `WhiteSpace`
and `LineTerminator`. -/
def isWhiteSpace (c : Char) : Bool :=
  let n := c.toNat
  n == 0x09 || n == 0x0A || n == 0x0B || n == 0x0C || n == 0x0D || n == 0x20 ||
  n == 0xA0 || n == 0x1680 || (0x2000 ≤ n && n ≤ 0x200A) || n == 0x2028 ||
  n == 0x2029 || n == 0x202F || n == 0x205F || n == 0x3000 || n == 0xFEFF

/-- Characters of `s.trim()`: leading and trailing white space dropped. -/
def trimChars (cs : List Char) : List Char :=
  ((cs.dropWhile isWhiteSpace).reverse.dropWhile isWhiteSpace).reverse

/-- Embedding of `s.trim()`. -/
def trim (s : String) : String := ⟨trimChars s.data⟩

/-! ### `String.prototype.toLowerCase`

The built-in lower-cases by the Unicode Default Case Conversion: every character
is replaced by its lower-case mapping (`UnicodeData.txt` and the unconditional
part of `SpecialCasing.txt`), and `Σ` by `ς` or `σ` according to the condition
`Final_Sigma`. The tables are those of the Unicode Character Database 14.0. -/

/-- Whether `n` is one of `first`, `first + stride`, ... up to `last`. -/
def inRun (first last stride n : Nat) : Bool :=
  first ≤ n && n ≤ last && (n - first) % stride == 0

/-- Whether `n` lies in one of the runs `(first, last, stride)` of a table. -/
def inRanges (t : List (Nat × Nat × Nat)) (n : Nat) : Bool :=
  t.any fun r => inRun r.1 r.2.1 r.2.2 n

/-- Simple lower-case mappings of the Unicode Character Database 14.0
(`UnicodeData.txt`, field 13), as runs `(first, last, stride, image of first)`: the code
points `first`, `first + stride`, ... up to `last` map to the image of `first` plus their
distance from `first`. -/
def lowercaseRanges : List (Nat × Nat × Nat × Nat) :=
  [(65, 90, 1, 97), (192, 214, 1, 224), (216, 222, 1, 248), (256, 302, 2, 257),
    (306, 310, 2, 307), (313, 327, 2, 314), (330, 374, 2, 331), (376, 376, 1, 255),
    (377, 381, 2, 378), (385, 385, 1, 595), (386, 388, 2, 387), (390, 390, 1, 596),
    (391, 391, 1, 392), (393, 394, 1, 598), (395, 395, 1, 396), (398, 398, 1, 477),
    (399, 399, 1, 601), (400, 400, 1, 603), (401, 401, 1, 402), (403, 403, 1, 608),
    (404, 404, 1, 611), (406, 406, 1, 617), (407, 407, 1, 616), (408, 408, 1, 409),
    (412, 412, 1, 623), (413, 413, 1, 626), (415, 415, 1, 629), (416, 420, 2, 417),
    (422, 422, 1, 640), (423, 423, 1, 424), (425, 425, 1, 643), (428, 428, 1, 429),
    (430, 430, 1, 648), (431, 431, 1, 432), (433, 434, 1, 650), (435, 437, 2, 436),
    (439, 439, 1, 658), (440, 440, 1, 441), (444, 444, 1, 445), (452, 452, 1, 454),
    (453, 453, 1, 454), (455, 455, 1, 457), (456, 456, 1, 457), (458, 458, 1, 460),
    (459, 475, 2, 460), (478, 494, 2, 479), (497, 497, 1, 499), (498, 500, 2, 499),
    (502, 502, 1, 405), (503, 503, 1, 447), (504, 542, 2, 505), (544, 544, 1, 414),
    (546, 562, 2, 547), (570, 570, 1, 11365), (571, 571, 1, 572), (573, 573, 1, 410),
    (574, 574, 1, 11366), (577, 577, 1, 578), (579, 579, 1, 384), (580, 580, 1, 649),
    (581, 581, 1, 652), (582, 590, 2, 583), (880, 882, 2, 881), (886, 886, 1, 887),
    (895, 895, 1, 1011), (902, 902, 1, 940), (904, 906, 1, 941), (908, 908, 1, 972),
    (910, 911, 1, 973), (913, 929, 1, 945), (931, 939, 1, 963), (975, 975, 1, 983),
    (984, 1006, 2, 985), (1012, 1012, 1, 952), (1015, 1015, 1, 1016), (1017, 1017, 1, 1010),
    (1018, 1018, 1, 1019), (1021, 1023, 1, 891), (1024, 1039, 1, 1104), (1040, 1071, 1, 1072),
    (1120, 1152, 2, 1121), (1162, 1214, 2, 1163), (1216, 1216, 1, 1231), (1217, 1229, 2, 1218),
    (1232, 1326, 2, 1233), (1329, 1366, 1, 1377), (4256, 4293, 1, 11520), (4295, 4295, 1, 11559),
    (4301, 4301, 1, 11565), (5024, 5103, 1, 43888), (5104, 5109, 1, 5112), (7312, 7354, 1, 4304),
    (7357, 7359, 1, 4349), (7680, 7828, 2, 7681), (7838, 7838, 1, 223), (7840, 7934, 2, 7841),
    (7944, 7951, 1, 7936), (7960, 7965, 1, 7952), (7976, 7983, 1, 7968), (7992, 7999, 1, 7984),
    (8008, 8013, 1, 8000), (8025, 8031, 2, 8017), (8040, 8047, 1, 8032), (8072, 8079, 1, 8064),
    (8088, 8095, 1, 8080), (8104, 8111, 1, 8096), (8120, 8121, 1, 8112), (8122, 8123, 1, 8048),
    (8124, 8124, 1, 8115), (8136, 8139, 1, 8050), (8140, 8140, 1, 8131), (8152, 8153, 1, 8144),
    (8154, 8155, 1, 8054), (8168, 8169, 1, 8160), (8170, 8171, 1, 8058), (8172, 8172, 1, 8165),
    (8184, 8185, 1, 8056), (8186, 8187, 1, 8060), (8188, 8188, 1, 8179), (8486, 8486, 1, 969),
    (8490, 8490, 1, 107), (8491, 8491, 1, 229), (8498, 8498, 1, 8526), (8544, 8559, 1, 8560),
    (8579, 8579, 1, 8580), (9398, 9423, 1, 9424), (11264, 11311, 1, 11312),
    (11360, 11360, 1, 11361), (11362, 11362, 1, 619), (11363, 11363, 1, 7549),
    (11364, 11364, 1, 637), (11367, 11371, 2, 11368), (11373, 11373, 1, 593),
    (11374, 11374, 1, 625), (11375, 11375, 1, 592), (11376, 11376, 1, 594),
    (11378, 11378, 1, 11379), (11381, 11381, 1, 11382), (11390, 11391, 1, 575),
    (11392, 11490, 2, 11393), (11499, 11501, 2, 11500), (11506, 11506, 1, 11507),
    (42560, 42604, 2, 42561), (42624, 42650, 2, 42625), (42786, 42798, 2, 42787),
    (42802, 42862, 2, 42803), (42873, 42875, 2, 42874), (42877, 42877, 1, 7545),
    (42878, 42886, 2, 42879), (42891, 42891, 1, 42892), (42893, 42893, 1, 613),
    (42896, 42898, 2, 42897), (42902, 42920, 2, 42903), (42922, 42922, 1, 614),
    (42923, 42923, 1, 604), (42924, 42924, 1, 609), (42925, 42925, 1, 620),
    (42926, 42926, 1, 618), (42928, 42928, 1, 670), (42929, 42929, 1, 647),
    (42930, 42930, 1, 669), (42931, 42931, 1, 43859), (42932, 42946, 2, 42933),
    (42948, 42948, 1, 42900), (42949, 42949, 1, 642), (42950, 42950, 1, 7566),
    (42951, 42953, 2, 42952), (42960, 42960, 1, 42961), (42966, 42968, 2, 42967),
    (42997, 42997, 1, 42998), (65313, 65338, 1, 65345), (66560, 66599, 1, 66600),
    (66736, 66771, 1, 66776), (66928, 66938, 1, 66967), (66940, 66954, 1, 66979),
    (66956, 66962, 1, 66995), (66964, 66965, 1, 67003), (68736, 68786, 1, 68800),
    (71840, 71871, 1, 71872), (93760, 93791, 1, 93792), (125184, 125217, 1, 125218)]

/-- Code points of general category `Lu` (Letter, uppercase) in the Unicode Character
Database 14.0, as runs `(first, last, stride)`. -/
def uppercaseLetterRanges : List (Nat × Nat × Nat) :=
  [(65, 90, 1), (192, 214, 1), (216, 222, 1), (256, 310, 2), (313, 327, 2), (330, 376, 2),
    (377, 381, 2), (385, 386, 1), (388, 390, 2), (391, 393, 2), (394, 395, 1), (398, 401, 1),
    (403, 404, 1), (406, 408, 1), (412, 413, 1), (415, 416, 1), (418, 422, 2), (423, 425, 2),
    (428, 430, 2), (431, 433, 2), (434, 435, 1), (437, 439, 2), (440, 440, 1), (444, 444, 1),
    (452, 452, 1), (455, 455, 1), (458, 458, 1), (461, 475, 2), (478, 494, 2), (497, 497, 1),
    (500, 502, 2), (503, 504, 1), (506, 562, 2), (570, 571, 1), (573, 574, 1), (577, 579, 2),
    (580, 582, 1), (584, 590, 2), (880, 882, 2), (886, 886, 1), (895, 895, 1), (902, 904, 2),
    (905, 906, 1), (908, 910, 2), (911, 913, 2), (914, 929, 1), (931, 939, 1), (975, 975, 1),
    (978, 980, 1), (984, 1006, 2), (1012, 1012, 1), (1015, 1017, 2), (1018, 1018, 1),
    (1021, 1071, 1), (1120, 1152, 2), (1162, 1216, 2), (1217, 1229, 2), (1232, 1326, 2),
    (1329, 1366, 1), (4256, 4293, 1), (4295, 4295, 1), (4301, 4301, 1), (5024, 5109, 1),
    (7312, 7354, 1), (7357, 7359, 1), (7680, 7828, 2), (7838, 7934, 2), (7944, 7951, 1),
    (7960, 7965, 1), (7976, 7983, 1), (7992, 7999, 1), (8008, 8013, 1), (8025, 8031, 2),
    (8040, 8047, 1), (8120, 8123, 1), (8136, 8139, 1), (8152, 8155, 1), (8168, 8172, 1),
    (8184, 8187, 1), (8450, 8450, 1), (8455, 8455, 1), (8459, 8461, 1), (8464, 8466, 1),
    (8469, 8469, 1), (8473, 8477, 1), (8484, 8490, 2), (8491, 8493, 1), (8496, 8499, 1),
    (8510, 8511, 1), (8517, 8517, 1), (8579, 8579, 1), (11264, 11311, 1), (11360, 11362, 2),
    (11363, 11364, 1), (11367, 11373, 2), (11374, 11376, 1), (11378, 11378, 1),
    (11381, 11381, 1), (11390, 11392, 1), (11394, 11490, 2), (11499, 11501, 2),
    (11506, 11506, 1), (42560, 42604, 2), (42624, 42650, 2), (42786, 42798, 2),
    (42802, 42862, 2), (42873, 42877, 2), (42878, 42886, 2), (42891, 42893, 2),
    (42896, 42898, 2), (42902, 42922, 2), (42923, 42926, 1), (42928, 42932, 1),
    (42934, 42948, 2), (42949, 42951, 1), (42953, 42953, 1), (42960, 42960, 1),
    (42966, 42968, 2), (42997, 42997, 1), (65313, 65338, 1), (66560, 66599, 1),
    (66736, 66771, 1), (66928, 66938, 1), (66940, 66954, 1), (66956, 66962, 1),
    (66964, 66965, 1), (68736, 68786, 1), (71840, 71871, 1), (93760, 93791, 1),
    (119808, 119833, 1), (119860, 119885, 1), (119912, 119937, 1), (119964, 119966, 2),
    (119967, 119967, 1), (119970, 119970, 1), (119973, 119974, 1), (119977, 119980, 1),
    (119982, 119989, 1), (120016, 120041, 1), (120068, 120069, 1), (120071, 120074, 1),
    (120077, 120084, 1), (120086, 120092, 1), (120120, 120121, 1), (120123, 120126, 1),
    (120128, 120132, 1), (120134, 120134, 1), (120138, 120144, 1), (120172, 120197, 1),
    (120224, 120249, 1), (120276, 120301, 1), (120328, 120353, 1), (120380, 120405, 1),
    (120432, 120457, 1), (120488, 120512, 1), (120546, 120570, 1), (120604, 120628, 1),
    (120662, 120686, 1), (120720, 120744, 1), (120778, 120778, 1), (125184, 125217, 1)]

/-- Code points with the property `Case_Ignorable` (`DerivedCoreProperties.txt`, Unicode
14.0), as runs `(first, last, stride)`. -/
def caseIgnorableRanges : List (Nat × Nat × Nat) :=
  [(39, 39, 1), (46, 46, 1), (58, 58, 1), (94, 96, 2), (168, 168, 1), (173, 175, 2),
    (180, 180, 1), (183, 184, 1), (688, 879, 1), (884, 885, 1), (890, 890, 1), (900, 901, 1),
    (903, 903, 1), (1155, 1161, 1), (1369, 1369, 1), (1375, 1375, 1), (1425, 1469, 1),
    (1471, 1473, 2), (1474, 1476, 2), (1477, 1479, 2), (1524, 1524, 1), (1536, 1541, 1),
    (1552, 1562, 1), (1564, 1564, 1), (1600, 1600, 1), (1611, 1631, 1), (1648, 1648, 1),
    (1750, 1757, 1), (1759, 1768, 1), (1770, 1773, 1), (1807, 1809, 2), (1840, 1866, 1),
    (1958, 1968, 1), (2027, 2037, 1), (2042, 2042, 1), (2045, 2045, 1), (2070, 2093, 1),
    (2137, 2139, 1), (2184, 2184, 1), (2192, 2193, 1), (2200, 2207, 1), (2249, 2306, 1),
    (2362, 2364, 2), (2369, 2376, 1), (2381, 2381, 1), (2385, 2391, 1), (2402, 2403, 1),
    (2417, 2417, 1), (2433, 2433, 1), (2492, 2492, 1), (2497, 2500, 1), (2509, 2509, 1),
    (2530, 2531, 1), (2558, 2558, 1), (2561, 2562, 1), (2620, 2620, 1), (2625, 2626, 1),
    (2631, 2632, 1), (2635, 2637, 1), (2641, 2641, 1), (2672, 2673, 1), (2677, 2677, 1),
    (2689, 2690, 1), (2748, 2748, 1), (2753, 2757, 1), (2759, 2760, 1), (2765, 2765, 1),
    (2786, 2787, 1), (2810, 2815, 1), (2817, 2817, 1), (2876, 2876, 1), (2879, 2881, 2),
    (2882, 2884, 1), (2893, 2893, 1), (2901, 2902, 1), (2914, 2915, 1), (2946, 2946, 1),
    (3008, 3008, 1), (3021, 3021, 1), (3072, 3072, 1), (3076, 3076, 1), (3132, 3134, 2),
    (3135, 3136, 1), (3142, 3144, 1), (3146, 3149, 1), (3157, 3158, 1), (3170, 3171, 1),
    (3201, 3201, 1), (3260, 3260, 1), (3263, 3263, 1), (3270, 3270, 1), (3276, 3277, 1),
    (3298, 3299, 1), (3328, 3329, 1), (3387, 3388, 1), (3393, 3396, 1), (3405, 3405, 1),
    (3426, 3427, 1), (3457, 3457, 1), (3530, 3530, 1), (3538, 3540, 1), (3542, 3542, 1),
    (3633, 3633, 1), (3636, 3642, 1), (3654, 3662, 1), (3761, 3761, 1), (3764, 3772, 1),
    (3782, 3784, 2), (3785, 3789, 1), (3864, 3865, 1), (3893, 3897, 2), (3953, 3966, 1),
    (3968, 3972, 1), (3974, 3975, 1), (3981, 3991, 1), (3993, 4028, 1), (4038, 4038, 1),
    (4141, 4144, 1), (4146, 4151, 1), (4153, 4154, 1), (4157, 4158, 1), (4184, 4185, 1),
    (4190, 4192, 1), (4209, 4212, 1), (4226, 4226, 1), (4229, 4230, 1), (4237, 4237, 1),
    (4253, 4253, 1), (4348, 4348, 1), (4957, 4959, 1), (5906, 5908, 1), (5938, 5939, 1),
    (5970, 5971, 1), (6002, 6003, 1), (6068, 6069, 1), (6071, 6077, 1), (6086, 6086, 1),
    (6089, 6099, 1), (6103, 6103, 1), (6109, 6109, 1), (6155, 6159, 1), (6211, 6211, 1),
    (6277, 6278, 1), (6313, 6313, 1), (6432, 6434, 1), (6439, 6440, 1), (6450, 6450, 1),
    (6457, 6459, 1), (6679, 6680, 1), (6683, 6683, 1), (6742, 6744, 2), (6745, 6750, 1),
    (6752, 6754, 2), (6757, 6764, 1), (6771, 6780, 1), (6783, 6783, 1), (6823, 6823, 1),
    (6832, 6862, 1), (6912, 6915, 1), (6964, 6966, 2), (6967, 6970, 1), (6972, 6972, 1),
    (6978, 6978, 1), (7019, 7027, 1), (7040, 7041, 1), (7074, 7077, 1), (7080, 7081, 1),
    (7083, 7085, 1), (7142, 7144, 2), (7145, 7145, 1), (7149, 7151, 2), (7152, 7153, 1),
    (7212, 7219, 1), (7222, 7223, 1), (7288, 7293, 1), (7376, 7378, 1), (7380, 7392, 1),
    (7394, 7400, 1), (7405, 7405, 1), (7412, 7412, 1), (7416, 7417, 1), (7468, 7530, 1),
    (7544, 7544, 1), (7579, 7679, 1), (8125, 8127, 2), (8128, 8129, 1), (8141, 8143, 1),
    (8157, 8159, 1), (8173, 8175, 1), (8189, 8190, 1), (8203, 8207, 1), (8216, 8217, 1),
    (8228, 8228, 1), (8231, 8231, 1), (8234, 8238, 1), (8288, 8292, 1), (8294, 8303, 1),
    (8305, 8305, 1), (8319, 8319, 1), (8336, 8348, 1), (8400, 8432, 1), (11388, 11389, 1),
    (11503, 11505, 1), (11631, 11631, 1), (11647, 11647, 1), (11744, 11775, 1),
    (11823, 11823, 1), (12293, 12293, 1), (12330, 12333, 1), (12337, 12341, 1),
    (12347, 12347, 1), (12441, 12446, 1), (12540, 12542, 1), (40981, 40981, 1),
    (42232, 42237, 1), (42508, 42508, 1), (42607, 42610, 1), (42612, 42621, 1),
    (42623, 42623, 1), (42652, 42655, 1), (42736, 42737, 1), (42752, 42785, 1),
    (42864, 42864, 1), (42888, 42890, 1), (42994, 42996, 1), (43000, 43001, 1),
    (43010, 43010, 1), (43014, 43014, 1), (43019, 43019, 1), (43045, 43046, 1),
    (43052, 43052, 1), (43204, 43205, 1), (43232, 43249, 1), (43263, 43263, 1),
    (43302, 43309, 1), (43335, 43345, 1), (43392, 43394, 1), (43443, 43443, 1),
    (43446, 43449, 1), (43452, 43453, 1), (43471, 43471, 1), (43493, 43494, 1),
    (43561, 43566, 1), (43569, 43570, 1), (43573, 43574, 1), (43587, 43587, 1),
    (43596, 43596, 1), (43632, 43632, 1), (43644, 43644, 1), (43696, 43698, 2),
    (43699, 43700, 1), (43703, 43704, 1), (43710, 43711, 1), (43713, 43713, 1),
    (43741, 43741, 1), (43756, 43757, 1), (43763, 43764, 1), (43766, 43766, 1),
    (43867, 43871, 1), (43881, 43883, 1), (44005, 44005, 1), (44008, 44008, 1),
    (44013, 44013, 1), (64286, 64286, 1), (64434, 64450, 1), (65024, 65039, 1),
    (65043, 65043, 1), (65056, 65071, 1), (65106, 65106, 1), (65109, 65109, 1),
    (65279, 65279, 1), (65287, 65287, 1), (65294, 65294, 1), (65306, 65306, 1),
    (65342, 65344, 2), (65392, 65392, 1), (65438, 65439, 1), (65507, 65507, 1),
    (65529, 65531, 1), (66045, 66045, 1), (66272, 66272, 1), (66422, 66426, 1),
    (67456, 67461, 1), (67463, 67504, 1), (67506, 67514, 1), (68097, 68099, 1),
    (68101, 68102, 1), (68108, 68111, 1), (68152, 68154, 1), (68159, 68159, 1),
    (68325, 68326, 1), (68900, 68903, 1), (69291, 69292, 1), (69446, 69456, 1),
    (69506, 69509, 1), (69633, 69633, 1), (69688, 69702, 1), (69744, 69744, 1),
    (69747, 69748, 1), (69759, 69761, 1), (69811, 69814, 1), (69817, 69818, 1),
    (69821, 69821, 1), (69826, 69826, 1), (69837, 69837, 1), (69888, 69890, 1),
    (69927, 69931, 1), (69933, 69940, 1), (70003, 70003, 1), (70016, 70017, 1),
    (70070, 70078, 1), (70089, 70092, 1), (70095, 70095, 1), (70191, 70193, 1),
    (70196, 70198, 2), (70199, 70199, 1), (70206, 70206, 1), (70367, 70367, 1),
    (70371, 70378, 1), (70400, 70401, 1), (70459, 70460, 1), (70464, 70464, 1),
    (70502, 70508, 1), (70512, 70516, 1), (70712, 70719, 1), (70722, 70724, 1),
    (70726, 70726, 1), (70750, 70750, 1), (70835, 70840, 1), (70842, 70842, 1),
    (70847, 70848, 1), (70850, 70851, 1), (71090, 71093, 1), (71100, 71101, 1),
    (71103, 71104, 1), (71132, 71133, 1), (71219, 71226, 1), (71229, 71231, 2),
    (71232, 71232, 1), (71339, 71341, 2), (71344, 71349, 1), (71351, 71351, 1),
    (71453, 71455, 1), (71458, 71461, 1), (71463, 71467, 1), (71727, 71735, 1),
    (71737, 71738, 1), (71995, 71996, 1), (71998, 71998, 1), (72003, 72003, 1),
    (72148, 72151, 1), (72154, 72155, 1), (72160, 72160, 1), (72193, 72202, 1),
    (72243, 72248, 1), (72251, 72254, 1), (72263, 72263, 1), (72273, 72278, 1),
    (72281, 72283, 1), (72330, 72342, 1), (72344, 72345, 1), (72752, 72758, 1),
    (72760, 72765, 1), (72767, 72767, 1), (72850, 72871, 1), (72874, 72880, 1),
    (72882, 72883, 1), (72885, 72886, 1), (73009, 73014, 1), (73018, 73020, 2),
    (73021, 73023, 2), (73024, 73029, 1), (73031, 73031, 1), (73104, 73105, 1),
    (73109, 73111, 2), (73459, 73460, 1), (78896, 78904, 1), (92912, 92916, 1),
    (92976, 92982, 1), (92992, 92995, 1), (94031, 94031, 1), (94095, 94111, 1),
    (94176, 94177, 1), (94179, 94180, 1), (110576, 110579, 1), (110581, 110587, 1),
    (110589, 110590, 1), (113821, 113822, 1), (113824, 113827, 1), (118528, 118573, 1),
    (118576, 118598, 1), (119143, 119145, 1), (119155, 119170, 1), (119173, 119179, 1),
    (119210, 119213, 1), (119362, 119364, 1), (121344, 121398, 1), (121403, 121452, 1),
    (121461, 121461, 1), (121476, 121476, 1), (121499, 121503, 1), (121505, 121519, 1),
    (122880, 122886, 1), (122888, 122904, 1), (122907, 122913, 1), (122915, 122916, 1),
    (122918, 122922, 1), (123184, 123197, 1), (123566, 123566, 1), (123628, 123631, 1),
    (125136, 125142, 1), (125252, 125259, 1), (127995, 127999, 1), (917505, 917505, 1),
    (917536, 917631, 1), (917760, 917999, 1)]

/-- Code points with the property `Cased` (`DerivedCoreProperties.txt`, Unicode 14.0), as
runs `(first, last, stride)`. -/
def casedRanges : List (Nat × Nat × Nat) :=
  [(65, 90, 1), (97, 122, 1), (170, 170, 1), (181, 181, 1), (186, 186, 1), (192, 214, 1),
    (216, 246, 1), (248, 442, 1), (444, 447, 1), (452, 659, 1), (661, 696, 1), (704, 705, 1),
    (736, 740, 1), (837, 837, 1), (880, 883, 1), (886, 887, 1), (890, 893, 1), (895, 895, 1),
    (902, 904, 2), (905, 906, 1), (908, 910, 2), (911, 929, 1), (931, 1013, 1), (1015, 1153, 1),
    (1162, 1327, 1), (1329, 1366, 1), (1376, 1416, 1), (4256, 4293, 1), (4295, 4295, 1),
    (4301, 4301, 1), (4304, 4346, 1), (4349, 4351, 1), (5024, 5109, 1), (5112, 5117, 1),
    (7296, 7304, 1), (7312, 7354, 1), (7357, 7359, 1), (7424, 7615, 1), (7680, 7957, 1),
    (7960, 7965, 1), (7968, 8005, 1), (8008, 8013, 1), (8016, 8023, 1), (8025, 8031, 2),
    (8032, 8061, 1), (8064, 8116, 1), (8118, 8124, 1), (8126, 8126, 1), (8130, 8132, 1),
    (8134, 8140, 1), (8144, 8147, 1), (8150, 8155, 1), (8160, 8172, 1), (8178, 8180, 1),
    (8182, 8188, 1), (8305, 8305, 1), (8319, 8319, 1), (8336, 8348, 1), (8450, 8450, 1),
    (8455, 8455, 1), (8458, 8467, 1), (8469, 8469, 1), (8473, 8477, 1), (8484, 8490, 2),
    (8491, 8493, 1), (8495, 8500, 1), (8505, 8505, 1), (8508, 8511, 1), (8517, 8521, 1),
    (8526, 8526, 1), (8544, 8575, 1), (8579, 8580, 1), (9398, 9449, 1), (11264, 11492, 1),
    (11499, 11502, 1), (11506, 11507, 1), (11520, 11557, 1), (11559, 11559, 1),
    (11565, 11565, 1), (42560, 42605, 1), (42624, 42653, 1), (42786, 42887, 1),
    (42891, 42894, 1), (42896, 42954, 1), (42960, 42961, 1), (42963, 42965, 2),
    (42966, 42969, 1), (42997, 42998, 1), (43000, 43002, 1), (43824, 43866, 1),
    (43868, 43880, 1), (43888, 43967, 1), (64256, 64262, 1), (64275, 64279, 1),
    (65313, 65338, 1), (65345, 65370, 1), (66560, 66639, 1), (66736, 66771, 1),
    (66776, 66811, 1), (66928, 66938, 1), (66940, 66954, 1), (66956, 66962, 1),
    (66964, 66965, 1), (66967, 66977, 1), (66979, 66993, 1), (66995, 67001, 1),
    (67003, 67004, 1), (67456, 67456, 1), (67459, 67461, 1), (67463, 67504, 1),
    (67506, 67514, 1), (68736, 68786, 1), (68800, 68850, 1), (71840, 71903, 1),
    (93760, 93823, 1), (119808, 119892, 1), (119894, 119964, 1), (119966, 119967, 1),
    (119970, 119970, 1), (119973, 119974, 1), (119977, 119980, 1), (119982, 119993, 1),
    (119995, 119997, 2), (119998, 120003, 1), (120005, 120069, 1), (120071, 120074, 1),
    (120077, 120084, 1), (120086, 120092, 1), (120094, 120121, 1), (120123, 120126, 1),
    (120128, 120132, 1), (120134, 120134, 1), (120138, 120144, 1), (120146, 120485, 1),
    (120488, 120512, 1), (120514, 120538, 1), (120540, 120570, 1), (120572, 120596, 1),
    (120598, 120628, 1), (120630, 120654, 1), (120656, 120686, 1), (120688, 120712, 1),
    (120714, 120744, 1), (120746, 120770, 1), (120772, 120779, 1), (122624, 122633, 1),
    (122635, 122654, 1), (125184, 125251, 1), (127280, 127305, 1), (127312, 127337, 1),
    (127344, 127369, 1)]

/-- The simple lower-case mapping of a code point: its image under the run of
`lowercaseRanges` that holds it, the code point itself when no run does. -/
def lowerCode (n : Nat) : Nat :=
  match lowercaseRanges.find? (fun r => inRun r.1 r.2.1 r.2.2.1 n) with
  | some r => r.2.2.2 + (n - r.1)
  | none => n

/-- Upper-case letters: the characters of general category `Lu`. -/
def isUpperCase (c : Char) : Bool := inRanges uppercaseLetterRanges c.toNat

/-- The property `Case_Ignorable`. -/
def isCaseIgnorable (c : Char) : Bool := inRanges caseIgnorableRanges c.toNat

/-- The property `Cased`. -/
def isCased (c : Char) : Bool := inRanges casedRanges c.toNat

/-- The lower-case mapping of one character outside any context: `U+0130` gives
`i` followed by `U+0307` (`SpecialCasing.txt`), every other character its simple
mapping. -/
def lowerMapping (c : Char) : List Char :=
  if c.toNat = 0x130 then ['i', Char.ofNat 0x307] else [Char.ofNat (lowerCode c.toNat)]

/-- First half of `Final_Sigma`, on the characters before the position, nearest
first: after skipping case-ignorable characters, a cased character is met. -/
def precededByCased : List Char → Bool
  | [] => false
  | c :: cs => if isCaseIgnorable c then precededByCased cs else isCased c

/-- Second half of `Final_Sigma`, on the characters after the position: after
skipping case-ignorable characters, a cased character is met. -/
def followedByCased : List Char → Bool
  | [] => false
  | c :: cs => if isCaseIgnorable c then followedByCased cs else isCased c

/-- Lower-casing of the characters that follow `before` (the characters already
passed, nearest first): `Σ` gives `ς` when it is preceded by a cased letter and not
followed by one, `σ` otherwise; every other character gives its `lowerMapping`. -/
def lowerChars (before : List Char) : List Char → List Char
  | [] => []
  | c :: after =>
      (if c = 'Σ' then
        (if precededByCased before && !followedByCased after then ['ς'] else ['σ'])
      else lowerMapping c) ++ lowerChars (c :: before) after

/-- Embedding of `s.toLowerCase()`. -/
def toLowerCase (s : String) : String := ⟨lowerChars [] s.data⟩

/-- The images of the run `r` and the run `q` have no code point in common: the
image of `r` ends before `q` starts, or starts after `q` ends, or both hold code
points of one parity only and the parities differ. -/
def apart (r q : Nat × Nat × Nat × Nat) : Bool :=
  r.2.2.2 + (r.2.1 - r.1) < q.1 || q.2.1 < r.2.2.2 ||
  ((r.2.2.1 == 2 || r.1 == r.2.1) && (q.2.2.1 == 2 || q.1 == q.2.1) &&
    (r.2.2.2 + q.1) % 2 == 1)

/-- The image of the run `r` avoids `U+0130` and holds Unicode scalar values only. -/
def imageOk (r : Nat × Nat × Nat × Nat) : Bool :=
  r.1 ≤ r.2.1 &&
  (r.2.2.2 + (r.2.1 - r.1) < 0x130 || 0x130 < r.2.2.2) &&
  (r.2.2.2 + (r.2.1 - r.1) < 0xD800 || (0xDFFF < r.2.2.2 && r.2.2.2 + (r.2.1 - r.1) < 0x110000))

/-- No image of a run of `lowercaseRanges` is mapped again: a check of the table. -/
def tableOk : Bool :=
  lowercaseRanges.all fun r => imageOk r && lowercaseRanges.all fun q => apart r q

/-- JavaScript truthiness of a string: `!s` holds exactly for the empty string. -/
def falsy (s : String) : Bool := s.data.isEmpty

/-! ## Data carried by the protocol -/

/-- A chat message as the client reads it (`msg.id`, `msg.userId`,
`msg.username`, `msg.message`, `msg.timestamp`). -/
structure Message where
  id : String
  userId : String
  username : String
  message : String
  timestamp : Nat
deriving DecidableEq, Repr

/-- An entry of the participant list (`userList` event). -/
structure User where
  userId : String
  username : String
deriving DecidableEq, Repr

/-- An entry of the pending-request list (`joinRequest` event). -/
structure JoinRequest where
  userId : String
  username : String
deriving DecidableEq, Repr

/-- Payload of `waitingForApproval`. -/
structure BindingData where
  roomId : String
  userId : String
  username : String
deriving DecidableEq, Repr

/-- Payload of `roomCreated` and `joinApproved`. -/
structure RoomData where
  roomId : String
  userId : String
  username : String
  isCreator : Bool
deriving DecidableEq, Repr

/-- The home-view form (`formData`). -/
structure FormData where
  username : String
  roomName : String
  joinRoomId : String
deriving DecidableEq, Repr

/-- Events the client sends to the server (`socket.emit`). -/
inductive Emit where
  | createRoom (username roomName : String)
  | joinRoom (username roomId : String)
  | sendMessage (message : String)
  | approveUser (userId : String)
  | rejectUser (userId : String)
  | kickUser (userId : String)
  | leaveRoom
deriving DecidableEq, Repr

/-- The `useState` cells of `App` (lines 29-57). `socket` is `none` for `null`. -/
structure AppState where
  socket : Option Nat
  isConnected : Bool
  currentView : String
  error : String
  success : String
  showSettings : Bool
  roomIdCopied : Bool
  roomId : String
  userId : String
  username : String
  isCreator : Bool
  roomName : String
  messages : List Message
  newMessage : String
  users : List User
  joinRequests : List JoinRequest
  formData : FormData
deriving DecidableEq, Repr

/-- The initial value of `formData` (lines 53-57). -/
def emptyForm : FormData := ⟨"", "", ""⟩

/-- The state of the first render: every cell at its `useState` initial value. -/
def initialState : AppState where
  socket := none
  isConnected := false
  currentView := "home"
  error := ""
  success := ""
  showSettings := false
  roomIdCopied := false
  roomId := ""
  userId := ""
  username := ""
  isCreator := false
  roomName := ""
  messages := []
  newMessage := ""
  users := []
  joinRequests := []
  formData := emptyForm

/-! ## Utility functions (lines 67-75) -/

/-- Embedding of `showError(msg)`: `setError(msg)`; the timer it starts fires later
as `Action.errorTimeout`. -/
def showError (s : AppState) (msg : String) : AppState := { s with error := msg }

/-- Embedding of `showSuccess(msg)`: `setSuccess(msg)`; the timer it starts fires later
as `Action.successTimeout`. -/
def showSuccess (s : AppState) (msg : String) : AppState := { s with success := msg }

/-- Embedding of `resetState` (lines 211-222). -/
def resetState (s : AppState) : AppState :=
  { s with
    roomId := ""
    userId := ""
    username := ""
    isCreator := false
    roomName := ""
    messages := []
    users := []
    joinRequests := []
    formData := ⟨"", "", ""⟩
    showSettings := false }

/-! ## Socket-event handlers (lines 118-197)

They are registered once, by the effect with the empty dependency list, so the
component values they read (`formData` in `roomCreated`) are those of the render
that ran the effect; that render's form is the argument `captured`. -/

/-- Handler of `connect`. -/
def onConnect (s : AppState) : AppState := { s with isConnected := true }

/-- Handler of `disconnect`. -/
def onDisconnect (s : AppState) : AppState := { s with isConnected := false }

/-- Handler of `error`. -/
def onError (s : AppState) (message : String) : AppState := showError s message

/-- Handler of `roomCreated` (lines 131-139). -/
def onRoomCreated (captured : FormData) (s : AppState) (d : RoomData) : AppState :=
  let s := { s with roomId := d.roomId }
  let s := { s with userId := d.userId }
  let s := { s with username := d.username }
  let s := { s with isCreator := d.isCreator }
  let s := { s with roomName := captured.roomName }
  let s := { s with currentView := "chat" }
  showSuccess s "Room created successfully"

/-- Handler of `waitingForApproval` (lines 141-146). -/
def onWaitingForApproval (s : AppState) (d : BindingData) : AppState :=
  let s := { s with roomId := d.roomId }
  let s := { s with userId := d.userId }
  let s := { s with username := d.username }
  { s with currentView := "waiting" }

/-- Handler of `joinApproved` (lines 148-155). -/
def onJoinApproved (s : AppState) (d : RoomData) : AppState :=
  let s := { s with roomId := d.roomId }
  let s := { s with userId := d.userId }
  let s := { s with username := d.username }
  let s := { s with isCreator := d.isCreator }
  let s := { s with currentView := "chat" }
  showSuccess s "Welcome to the chat"

/-- Handler of `joinRejected` (lines 157-160). -/
def onJoinRejected (s : AppState) (message : String) : AppState :=
  let s := showError s message
  { s with currentView := "home" }

/-- Handler of `kicked` (lines 162-166). -/
def onKicked (s : AppState) (message : String) : AppState :=
  let s := showError s message
  let s := { s with currentView := "home" }
  resetState s

/-- Handler of `roomClosed` (lines 168-172). -/
def onRoomClosed (s : AppState) (message : String) : AppState :=
  let s := showError s message
  let s := { s with currentView := "home" }
  resetState s

/-- Handler of `newMessage` (lines 175-177): `setMessages(prev => [...prev, message])`. -/
def onNewMessage (s : AppState) (message : Message) : AppState :=
  { s with messages := s.messages ++ [message] }

/-- Handler of `messageHistory` (lines 179-181): `setMessages(history)`. -/
def onMessageHistory (s : AppState) (history : List Message) : AppState :=
  { s with messages := history }

/-- Handler of `userList` (lines 183-185). -/
def onUserList (s : AppState) (userList : List User) : AppState :=
  { s with users := userList }

/-- Handler of `userJoined` (lines 187-189). -/
def onUserJoined (s : AppState) (username : String) : AppState :=
  showSuccess s (username ++ " joined")

/-- Handler of `userLeft` (lines 191-193). -/
def onUserLeft (s : AppState) (username : String) : AppState :=
  showSuccess s (username ++ " left")

/-- Handler of `joinRequest` (lines 195-197): `setJoinRequests(prev => [...prev, data])`. -/
def onJoinRequest (s : AppState) (data : JoinRequest) : AppState :=
  { s with joinRequests := s.joinRequests ++ [data] }

/-! ## User-action handlers (lines 224-304)

Each returns the state after the handler and the events emitted, in order. -/

/-- Embedding of `handleCreateRoom` (lines 224-240). -/
def handleCreateRoom (s : AppState) : AppState × List Emit :=
  if falsy (trim s.formData.username) || falsy (trim s.formData.roomName) then
    (showError s "Please enter both username and room name", [])
  else if s.socket.isNone || !s.isConnected then
    (showError s "Not connected to server", [])
  else
    (s, [Emit.createRoom (trim s.formData.username) (trim s.formData.roomName)])

/-- Embedding of `handleJoinRoom` (lines 242-258). -/
def handleJoinRoom (s : AppState) : AppState × List Emit :=
  if falsy (trim s.formData.username) || falsy (trim s.formData.joinRoomId) then
    (showError s "Please enter both username and room ID", [])
  else if s.socket.isNone || !s.isConnected then
    (showError s "Not connected to server", [])
  else
    (s, [Emit.joinRoom (trim s.formData.username) (trim s.formData.joinRoomId)])

/-- Embedding of `handleSendMessage` (lines 260-270). -/
def handleSendMessage (s : AppState) : AppState × List Emit :=
  if falsy (trim s.newMessage) || s.socket.isNone then (s, [])
  else ({ s with newMessage := "" }, [Emit.sendMessage (trim s.newMessage)])

/-- Embedding of `handleApproveUser` (lines 272-277). -/
def handleApproveUser (s : AppState) (userId : String) : AppState × List Emit :=
  if s.socket.isSome then
    ({ s with joinRequests := s.joinRequests.filter (fun req => req.userId != userId) },
      [Emit.approveUser userId])
  else (s, [])

/-- Embedding of `handleRejectUser` (lines 279-284). -/
def handleRejectUser (s : AppState) (userId : String) : AppState × List Emit :=
  if s.socket.isSome then
    ({ s with joinRequests := s.joinRequests.filter (fun req => req.userId != userId) },
      [Emit.rejectUser userId])
  else (s, [])

/-- Embedding of `handleKickUser` (lines 286-290); `confirm` answers the
confirmation dialog for the text it is shown. -/
def handleKickUser (s : AppState) (userId : String) (confirm : String → Bool) :
    AppState × List Emit :=
  if s.socket.isSome && confirm "Remove this user from the room?" then
    (s, [Emit.kickUser userId])
  else (s, [])

/-- The text `handleLeaveRoom` passes to `window.confirm` (lines 294-296). -/
def confirmMessage (s : AppState) : String :=
  if s.isCreator then
    "Are you sure? This will permanently delete the room and remove all participants."
  else "Are you sure you want to leave this room?"

/-- Embedding of `handleLeaveRoom` (lines 292-304); `confirm` answers the
confirmation dialog for the text it is shown. -/
def handleLeaveRoom (s : AppState) (confirm : String → Bool) : AppState × List Emit :=
  if s.socket.isSome then
    if confirm (confirmMessage s) then
      (resetState { s with currentView := "home" }, [Emit.leaveRoom])
    else (s, [])
  else (s, [])

/-! ## Remaining actions of the component -/

/-- Embedding of `copyRoomId` (lines 77-85); `ok` tells whether the clipboard
write succeeded. -/
def copyRoomId (s : AppState) (ok : Bool) : AppState :=
  if ok then { s with roomIdCopied := true } else showError s "Failed to copy room ID"

/-- The text `chatData` of `downloadChatArchive` (lines 90-93); `toLocaleString`
is the locale's rendering of a timestamp. -/
def chatData (toLocaleString : Nat → String) (messages : List Message) : String :=
  String.intercalate "\n"
    (messages.map fun msg =>
      "[" ++ toLocaleString msg.timestamp ++ "] " ++ msg.username ++ ": " ++ msg.message)

/-- The text `header` of `downloadChatArchive` (line 95); `generated` is the
rendering of the current time. -/
def header (generated : String) (s : AppState) : String :=
  "RedChat Archive - Room: " ++ (if falsy s.roomName then s.roomId else s.roomName) ++
    "\nGenerated: " ++ generated ++
    "\nTotal Messages: " ++ toString s.messages.length ++
    "\n" ++ String.mk (List.replicate 50 '=') ++ "\n\n"

/-- Embedding of `downloadChatArchive` (lines 87-110): the state after it and the
content of the downloaded file, `none` when nothing is downloaded. -/
def downloadChatArchive (toLocaleString : Nat → String) (generated : String)
    (s : AppState) : AppState × Option String :=
  if !s.isCreator || s.messages.length == 0 then (s, none)
  else
    (showSuccess s "Chat archive downloaded successfully",
      some (header generated s ++ chatData toLocaleString s.messages))

/-- Everything that can run a piece of the component's code: the mount effect,
the socket events, the timers, and the user's actions on the rendered controls. -/
inductive Action where
  | mount (newSocket : Nat)
  | connect
  | disconnect
  | error (message : String)
  | roomCreated (data : RoomData)
  | waitingForApproval (data : BindingData)
  | joinApproved (data : RoomData)
  | joinRejected (message : String)
  | kicked (message : String)
  | roomClosed (message : String)
  | newMessage (message : Message)
  | messageHistory (history : List Message)
  | userList (userList : List User)
  | userJoined (username : String)
  | userLeft (username : String)
  | joinRequest (data : JoinRequest)
  | errorTimeout
  | successTimeout
  | copiedTimeout
  | inputUsername (value : String)
  | inputRoomName (value : String)
  | inputJoinRoomId (value : String)
  | inputNewMessage (value : String)
  | submitCreateRoom
  | submitJoinRoom
  | submitSendMessage
  | approveUser (userId : String)
  | rejectUser (userId : String)
  | kickUser (userId : String) (confirm : String → Bool)
  | leaveRoom (confirm : String → Bool)
  | cancelRequest
  | toggleSettings
  | copyRoomId (ok : Bool)
  | downloadChatArchive (toLocaleString : Nat → String) (generated : String)

/-- One step of the client: the state after the action and the events emitted.
The socket handlers run with the form of the first render (`emptyForm`), the
render whose effect registered them. -/
def step (s : AppState) : Action → AppState × List Emit
  | .mount newSocket => ({ s with socket := some newSocket }, [])
  | .connect => (onConnect s, [])
  | .disconnect => (onDisconnect s, [])
  | .error message => (onError s message, [])
  | .roomCreated data => (onRoomCreated emptyForm s data, [])
  | .waitingForApproval data => (onWaitingForApproval s data, [])
  | .joinApproved data => (onJoinApproved s data, [])
  | .joinRejected message => (onJoinRejected s message, [])
  | .kicked message => (onKicked s message, [])
  | .roomClosed message => (onRoomClosed s message, [])
  | .newMessage message => (onNewMessage s message, [])
  | .messageHistory history => (onMessageHistory s history, [])
  | .userList userList => (onUserList s userList, [])
  | .userJoined username => (onUserJoined s username, [])
  | .userLeft username => (onUserLeft s username, [])
  | .joinRequest data => (onJoinRequest s data, [])
  | .errorTimeout => ({ s with error := "" }, [])
  | .successTimeout => ({ s with success := "" }, [])
  | .copiedTimeout => ({ s with roomIdCopied := false }, [])
  | .inputUsername value => ({ s with formData := { s.formData with username := value } }, [])
  | .inputRoomName value => ({ s with formData := { s.formData with roomName := value } }, [])
  | .inputJoinRoomId value =>
      ({ s with formData := { s.formData with joinRoomId := toLowerCase value } }, [])
  | .inputNewMessage value => ({ s with newMessage := value }, [])
  | .submitCreateRoom => handleCreateRoom s
  | .submitJoinRoom => handleJoinRoom s
  | .submitSendMessage => handleSendMessage s
  | .approveUser userId => handleApproveUser s userId
  | .rejectUser userId => handleRejectUser s userId
  | .kickUser userId confirm => handleKickUser s userId confirm
  | .leaveRoom confirm => handleLeaveRoom s confirm
  | .cancelRequest => (resetState { s with currentView := "home" }, [])
  | .toggleSettings => ({ s with showSettings := !s.showSettings }, [])
  | .copyRoomId ok => (copyRoomId s ok, [])
  | .downloadChatArchive toLocaleString generated =>
      ((downloadChatArchive toLocaleString generated s).1, [])

/-- The state after a sequence of actions, and all events emitted along it. -/
def run (s : AppState) : List Action → AppState × List Emit
  | [] => (s, [])
  | a :: as =>
      let r := step s a
      let r2 := run r.1 as
      (r2.1, r.2 ++ r2.2)

/-- The client states that some sequence of actions leads to from the first render. -/
def Reachable (s : AppState) : Prop := ∃ as : List Action, (run initialState as).1 = s

/-- Handling `messageHistory(history)` and then `newMessage` for each element
of `ms`, in list order. -/
def replay (s : AppState) (history : List Message) (ms : List Message) : AppState :=
  ms.foldl onNewMessage (onMessageHistory s history)

/-- The room state is cleared: the four texts are empty, `isCreator` is false and
the three lists are empty. -/
def RoomCleared (s : AppState) : Prop :=
  s.roomId = "" ∧ s.userId = "" ∧ s.username = "" ∧ s.roomName = "" ∧
  s.isCreator = false ∧ s.messages = [] ∧ s.users = [] ∧ s.joinRequests = []

/-- The form's room id is its own lower-casing. -/
def LowerCased (s : AppState) : Prop :=
  toLowerCase s.formData.joinRoomId = s.formData.joinRoomId

/-- The client state right after `waitingForApproval` for room `abc123`, user id
`u2`, name `bob`, handled in the first render's state. -/
def waitingBob : AppState :=
  onWaitingForApproval initialState ⟨"abc123", "u2", "bob"⟩

/-! ## The archive text (lines 90-97) -/

/-- One entry of `chatData` (lines 91-92): the template
`[timestamp] username: message` for one message. -/
def archiveEntry (toLocaleString : Nat → String) (msg : Message) : String :=
  "[" ++ toLocaleString msg.timestamp ++ "] " ++ msg.username ++ ": " ++ msg.message

/-- The pieces of a character sequence between consecutive line feeds. -/
def splitLines : List Char → List (List Char)
  | [] => [[]]
  | c :: cs =>
      if c = '\n' then [] :: splitLines cs
      else
        match splitLines cs with
        | [] => [[c]]
        | l :: ls => (c :: l) :: ls

/-- The lines of a text: what stands between consecutive `\n` characters. -/
def lines (s : String) : List String := (splitLines s.data).map String.mk

/-- An administrator `alice` in room `abc123` holding one message from `bob` whose
text has two lines (typed with Shift+Enter). -/
def twoLineArchive : AppState :=
  { initialState with
    socket := some 1, isConnected := true, currentView := "chat", roomId := "abc123",
    userId := "u1", username := "alice", isCreator := true,
    messages := [⟨"m1", "u2", "bob", "a\nb", 0⟩] }

/-! ## Rendering (lines 327-853): the controls a state offers -/

/-- The controls of the three views that invoke a handler or a state setter. -/
inductive Control where
  | usernameInput
  | roomNameInput
  | joinRoomIdInput
  | createRoomForm
  | joinRoomForm
  | cancelRequest
  | copyRoomId
  | archive
  | settings
  | leave
  | messageInput
  | messageForm
  | approve (userId : String)
  | reject (userId : String)
  | kick (userKey : String)
deriving DecidableEq, Repr

/-- The key of a participant entry (line 726): `user.userId`, or `user-` followed by
the index when the id is falsy. -/
def userKey (user : User) (index : Nat) : String :=
  if falsy user.userId then "user-" ++ toString index else user.userId

/-- Line 727: `user.username === username`. -/
def isCurrentUser (s : AppState) (user : User) : Bool := user.username == s.username

/-- Line 728: `isCreator && !isCurrentUser`, the guard of the remove button. -/
def isRoomCreator (s : AppState) (user : User) : Bool := s.isCreator && !isCurrentUser s user

/-- The remove buttons of `users.map((user, index) => ..)` (lines 725-766), for
the entries from position `index` on. -/
def participantControls (s : AppState) : Nat → List User → List Control
  | _, [] => []
  | index, user :: rest =>
      (if isRoomCreator s user then [Control.kick (userKey user index)] else []) ++
        participantControls s (index + 1) rest

/-- The approve and reject buttons of `joinRequests.map(..)` (lines 695-713). -/
def requestControls : List JoinRequest → List Control
  | [] => []
  | request :: rest =>
      Control.approve request.userId :: Control.reject request.userId :: requestControls rest

/-- The sidebar (lines 685-818), rendered when `showSettings` holds. -/
def sidebar (s : AppState) : List Control :=
  (if s.isCreator && decide (s.joinRequests.length > 0) then requestControls s.joinRequests
    else []) ++
  participantControls s 0 s.users ++ [Control.copyRoomId]

/-- The controls of the view `App` returns (lines 327-853); the last branch is
`return null`. -/
def render (s : AppState) : List Control :=
  if s.currentView == "home" then
    [Control.usernameInput, Control.roomNameInput, Control.createRoomForm,
      Control.usernameInput, Control.joinRoomIdInput, Control.joinRoomForm]
  else if s.currentView == "waiting" then [Control.cancelRequest]
  else if s.currentView == "chat" then
    [Control.copyRoomId] ++
    (if s.isCreator && decide (s.messages.length > 0) then [Control.archive] else []) ++
    [Control.settings, Control.leave, Control.messageInput, Control.messageForm] ++
    (if s.showSettings then sidebar s else [])
  else []

/-- The control whose handler an action runs; `none` for the mount effect, the
socket events and the timers, which no control invokes. -/
def Action.control : Action → Option Control
  | .inputUsername _ => some Control.usernameInput
  | .inputRoomName _ => some Control.roomNameInput
  | .inputJoinRoomId _ => some Control.joinRoomIdInput
  | .inputNewMessage _ => some Control.messageInput
  | .submitCreateRoom => some Control.createRoomForm
  | .submitJoinRoom => some Control.joinRoomForm
  | .submitSendMessage => some Control.messageForm
  | .approveUser userId => some (Control.approve userId)
  | .rejectUser userId => some (Control.reject userId)
  | .kickUser userKey _ => some (Control.kick userKey)
  | .leaveRoom _ => some Control.leave
  | .cancelRequest => some Control.cancelRequest
  | .toggleSettings => some Control.settings
  | .copyRoomId _ => some Control.copyRoomId
  | .downloadChatArchive _ _ => some Control.archive
  | _ => none

/-- A user action is offered in a state when its control is rendered there. -/
def offered (s : AppState) (a : Action) : Bool :=
  match a.control with
  | none => false
  | some c => decide (c ∈ render s)

/-- Whether an emitted event is one of the administrator operations. -/
def Emit.isAdminOp : Emit → Bool
  | .approveUser _ => true
  | .rejectUser _ => true
  | .kickUser _ => true
  | _ => false

/-- The limit of the message input (line 669, `maxLength` of the textarea). -/
def maxLength : Nat := 500

/-- An administrator `alice` (user id `u1`) with the sidebar open, in a room where
the participant with user id `u2` also shows the name `alice`. -/
def sameNameRoom : AppState :=
  { initialState with
    socket := some 1, isConnected := true, currentView := "chat", showSettings := true,
    roomId := "abc123", userId := "u1", username := "alice", isCreator := true,
    users := [⟨"u1", "alice"⟩, ⟨"u2", "alice"⟩, ⟨"u3", "bob"⟩] }

/-- A client with a socket whose draft holds 501 letters. -/
def longDraft : AppState :=
  { initialState with socket := some 1, newMessage := String.mk (List.replicate 501 'a') }

/-- A connected creator fills the form with `alice`, `standup`, submits it, and the
server answers `roomCreated`. -/
def createStandup : List Action :=
  [Action.mount 1, Action.connect, Action.inputUsername "alice", Action.inputRoomName "standup",
    Action.submitCreateRoom, Action.roomCreated ⟨"abc123", "u1", "alice", true⟩]

/-! ## The branch of `App` that returns (lines 327, 497, 529, 853) -/

/-- The view whose branch of `App` returns: the three tests on `currentView` in
source order; `none` is the final `return null`. -/
def viewBranch (s : AppState) : Option String :=
  if s.currentView == "home" then some "home"
  else if s.currentView == "waiting" then some "waiting"
  else if s.currentView == "chat" then some "chat"
  else none

/-- A client asks to join, cancels its request, and the administrator approves it
afterwards. -/
def cancelThenApproved : List Action :=
  [Action.mount 1, Action.connect, Action.waitingForApproval ⟨"abc123", "u2", "bob"⟩,
    Action.cancelRequest, Action.joinApproved ⟨"abc123", "u2", "bob", false⟩]

/-- A connected client types the name `bob` and the room id `ℂ` (U+2102, DOUBLE-STRUCK
CAPITAL C, an upper-case letter with no lower-case counterpart) and submits. -/
def typeDoubleStruckC : List Action :=
  [Action.mount 1, Action.connect, Action.inputUsername "bob", Action.inputJoinRoomId "ℂ",
    Action.submitJoinRoom]

/-- A connected client types the name `bob` and the room id ` AbC-ÀÇ9 ` and submits. -/
def typeMixedCase : List Action :=
  [Action.mount 1, Action.connect, Action.inputUsername "bob",
    Action.inputJoinRoomId " AbC-ÀÇ9 ", Action.submitJoinRoom]

/-! ## Helper lemmas -/

theorem falsy_iff (t : String) : falsy t = true ↔ t = "" := by
  cases t with
  | mk cs => cases cs <;> simp [falsy, String.ext_iff]

theorem foldl_onNewMessage (ms : List Message) (s : AppState) :
    (ms.foldl onNewMessage s).messages = s.messages ++ ms := by
  induction ms generalizing s with
  | nil => simp
  | cons m ms ih => simp [List.foldl_cons, ih, onNewMessage]

theorem handleCreateRoom_missing (s : AppState)
    (h : trim s.formData.username = "" ∨ trim s.formData.roomName = "") :
    handleCreateRoom s = (showError s "Please enter both username and room name", []) := by
  unfold handleCreateRoom
  rw [if_pos]
  simpa [falsy_iff] using h

theorem handleCreateRoom_offline (s : AppState)
    (hu : trim s.formData.username ≠ "") (hr : trim s.formData.roomName ≠ "")
    (h : s.socket = none ∨ s.isConnected = false) :
    handleCreateRoom s = (showError s "Not connected to server", []) := by
  unfold handleCreateRoom
  rw [if_neg, if_pos]
  · simpa [Option.isNone_iff_eq_none] using h
  · simp [falsy_iff, hu, hr]

theorem handleCreateRoom_ready (s : AppState)
    (hu : trim s.formData.username ≠ "") (hr : trim s.formData.roomName ≠ "")
    (hs : s.socket ≠ none) (hc : s.isConnected = true) :
    handleCreateRoom s =
      (s, [Emit.createRoom (trim s.formData.username) (trim s.formData.roomName)]) := by
  unfold handleCreateRoom
  rw [if_neg, if_neg]
  · simp [Option.isNone_iff_eq_none, hs, hc]
  · simp [falsy_iff, hu, hr]

theorem handleJoinRoom_missing (s : AppState)
    (h : trim s.formData.username = "" ∨ trim s.formData.joinRoomId = "") :
    handleJoinRoom s = (showError s "Please enter both username and room ID", []) := by
  unfold handleJoinRoom
  rw [if_pos]
  simpa [falsy_iff] using h

theorem handleJoinRoom_offline (s : AppState)
    (hu : trim s.formData.username ≠ "") (hr : trim s.formData.joinRoomId ≠ "")
    (h : s.socket = none ∨ s.isConnected = false) :
    handleJoinRoom s = (showError s "Not connected to server", []) := by
  unfold handleJoinRoom
  rw [if_neg, if_pos]
  · simpa [Option.isNone_iff_eq_none] using h
  · simp [falsy_iff, hu, hr]

theorem handleJoinRoom_ready (s : AppState)
    (hu : trim s.formData.username ≠ "") (hr : trim s.formData.joinRoomId ≠ "")
    (hs : s.socket ≠ none) (hc : s.isConnected = true) :
    handleJoinRoom s =
      (s, [Emit.joinRoom (trim s.formData.username) (trim s.formData.joinRoomId)]) := by
  unfold handleJoinRoom
  rw [if_neg, if_neg]
  · simp [Option.isNone_iff_eq_none, hs, hc]
  · simp [falsy_iff, hu, hr]

/-! ## Message order (C1, C2) -/

/-- C1: handling `newMessage` carrying `m` turns the message list `L` into exactly
`L ++ [m]`: `m` is last, the first `|L|` entries are `L` unchanged, nothing else
changes in the state and nothing is emitted; hence after any sequence `ms` of
`newMessage` events the list is `L ++ ms`, the arrival order. -/
theorem newMessage_appends (s : AppState) (m : Message) :
    (onNewMessage s m).messages = s.messages ++ [m] ∧
    (onNewMessage s m).messages.getLast? = some m ∧
    (onNewMessage s m).messages.take s.messages.length = s.messages ∧
    (onNewMessage s m).messages.length = s.messages.length + 1 ∧
    step s (Action.newMessage m) = ({ s with messages := s.messages ++ [m] }, []) ∧
    ∀ ms : List Message, (ms.foldl onNewMessage s).messages = s.messages ++ ms := by
  refine ⟨rfl, ?_, ?_, ?_, rfl, fun ms => foldl_onNewMessage ms s⟩
  · simp [onNewMessage]
  · simp [onNewMessage]
  · simp [onNewMessage]

/-- C2: handling `messageHistory(H)` and then `newMessage(m1)`, ..., `newMessage(mn)`
leaves the message list exactly `H ++ [m1, ..., mn]`, whatever the list held
before; so two clients replaying the same events hold the same list, of length
`|H| + n`. -/
theorem history_then_messages (s : AppState) (H ms : List Message) :
    (replay s H ms).messages = H ++ ms ∧
    (∀ s2 : AppState, (replay s2 H ms).messages = (replay s H ms).messages) ∧
    (replay s H ms).messages.length = H.length + ms.length ∧
    (run s (Action.messageHistory H :: ms.map Action.newMessage)).1 = replay s H ms := by
  have key : ∀ t : AppState, (replay t H ms).messages = H ++ ms := by
    intro t
    simp [replay, foldl_onNewMessage, onMessageHistory]
  refine ⟨key s, fun s2 => by rw [key s2, key s], by rw [key s]; simp, ?_⟩
  have hrun : ∀ (l : List Message) (t : AppState),
      (run t (l.map Action.newMessage)).1 = l.foldl onNewMessage t := by
    intro l
    induction l with
    | nil => intro t; rfl
    | cons a l ih => intro t; simp [run, step, ih]
  simp [run, step, replay, hrun]

/-! ## Input validation (C3, C4, C5) -/

/-- C3: when the draft is empty after trimming, `handleSendMessage` emits nothing
and returns the state unchanged (message list and draft included). -/
theorem handleSendMessage_blank (s : AppState) (h : trim s.newMessage = "") :
    handleSendMessage s = (s, []) := by
  simp [handleSendMessage, (falsy_iff _).2 h]

/-- Witness for C3: a draft of white space only, with a socket present. -/
theorem handleSendMessage_blank_witness :
    trim " \t\n" = "" ∧
    handleSendMessage { initialState with socket := some 1, newMessage := " \t\n" } =
      ({ initialState with socket := some 1, newMessage := " \t\n" }, []) :=
  ⟨by decide, handleSendMessage_blank _ (by decide)⟩

/-- C4: `handleCreateRoom` emits a `createRoom` event exactly when username and
room name are non-empty after trimming, a socket is present and the client is
connected; it then emits the single event carrying the two trimmed texts; in
every other case it emits nothing and changes the state only by setting a
non-empty error message. -/
theorem handleCreateRoom_emits_iff (s : AppState) :
    ((∃ u r, Emit.createRoom u r ∈ (handleCreateRoom s).2) ↔
      (trim s.formData.username ≠ "" ∧ trim s.formData.roomName ≠ "" ∧
        s.socket ≠ none ∧ s.isConnected = true)) ∧
    ((trim s.formData.username ≠ "" ∧ trim s.formData.roomName ≠ "" ∧
        s.socket ≠ none ∧ s.isConnected = true) →
      handleCreateRoom s =
        (s, [Emit.createRoom (trim s.formData.username) (trim s.formData.roomName)])) ∧
    (¬ (trim s.formData.username ≠ "" ∧ trim s.formData.roomName ≠ "" ∧
        s.socket ≠ none ∧ s.isConnected = true) →
      (handleCreateRoom s).2 = [] ∧ (handleCreateRoom s).1.error ≠ "" ∧
      (handleCreateRoom s).1 = { s with error := (handleCreateRoom s).1.error }) := by
  have hbad : ¬ (trim s.formData.username ≠ "" ∧ trim s.formData.roomName ≠ "" ∧
        s.socket ≠ none ∧ s.isConnected = true) →
      (handleCreateRoom s).2 = [] ∧ (handleCreateRoom s).1.error ≠ "" ∧
      (handleCreateRoom s).1 = { s with error := (handleCreateRoom s).1.error } := by
    intro hn
    by_cases hm : trim s.formData.username = "" ∨ trim s.formData.roomName = ""
    · rw [handleCreateRoom_missing s hm]
      refine ⟨rfl, ?_, rfl⟩
      show "Please enter both username and room name" ≠ ""
      decide
    · have hu : trim s.formData.username ≠ "" := fun h => hm (Or.inl h)
      have hr : trim s.formData.roomName ≠ "" := fun h => hm (Or.inr h)
      have ho : s.socket = none ∨ s.isConnected = false := by
        by_cases hs : s.socket = none
        · exact Or.inl hs
        · right
          cases hc : s.isConnected
          · rfl
          · exact absurd ⟨hu, hr, hs, hc⟩ hn
      rw [handleCreateRoom_offline s hu hr ho]
      refine ⟨rfl, ?_, rfl⟩
      show "Not connected to server" ≠ ""
      decide
  have hgood : (trim s.formData.username ≠ "" ∧ trim s.formData.roomName ≠ "" ∧
        s.socket ≠ none ∧ s.isConnected = true) →
      handleCreateRoom s =
        (s, [Emit.createRoom (trim s.formData.username) (trim s.formData.roomName)]) :=
    fun h => handleCreateRoom_ready s h.1 h.2.1 h.2.2.1 h.2.2.2
  refine ⟨⟨?_, ?_⟩, hgood, hbad⟩
  · rintro ⟨u, r, hmem⟩
    by_contra hn
    rw [(hbad hn).1] at hmem
    exact absurd hmem (List.not_mem_nil _)
  · intro h
    exact ⟨_, _, by rw [hgood h]; exact List.mem_singleton.2 rfl⟩

/-- Witness for C4: a connected client submits the form ` alice `, `standup`; a
client with no socket submits the same form. -/
theorem handleCreateRoom_emits_iff_witness :
    handleCreateRoom
        { initialState with
          socket := some 1, isConnected := true, formData := ⟨" alice ", "standup", ""⟩ } =
      ({ initialState with
          socket := some 1, isConnected := true, formData := ⟨" alice ", "standup", ""⟩ },
        [Emit.createRoom "alice" "standup"]) ∧
    (handleCreateRoom { initialState with formData := ⟨" alice ", "standup", ""⟩ }).2 = [] :=
  ⟨((handleCreateRoom_emits_iff
      { initialState with
        socket := some 1, isConnected := true, formData := ⟨" alice ", "standup", ""⟩ }).2.1
      (by decide)).trans (by decide),
    ((handleCreateRoom_emits_iff
      { initialState with formData := ⟨" alice ", "standup", ""⟩ }).2.2 (by decide)).1⟩

/-- C5: `handleJoinRoom` emits a `joinRoom` event exactly when username and room
id are non-empty after trimming, a socket is present and the client is
connected; it then emits the single event carrying the two trimmed texts;
otherwise it emits nothing and only sets an error message, the missing-input
message whenever an input is missing, the not-connected message otherwise. -/
theorem handleJoinRoom_emits_iff (s : AppState) :
    ((∃ u r, Emit.joinRoom u r ∈ (handleJoinRoom s).2) ↔
      (trim s.formData.username ≠ "" ∧ trim s.formData.joinRoomId ≠ "" ∧
        s.socket ≠ none ∧ s.isConnected = true)) ∧
    ((trim s.formData.username ≠ "" ∧ trim s.formData.joinRoomId ≠ "" ∧
        s.socket ≠ none ∧ s.isConnected = true) →
      handleJoinRoom s =
        (s, [Emit.joinRoom (trim s.formData.username) (trim s.formData.joinRoomId)])) ∧
    ((trim s.formData.username = "" ∨ trim s.formData.joinRoomId = "") →
      handleJoinRoom s =
        ({ s with error := "Please enter both username and room ID" }, [])) ∧
    ((trim s.formData.username ≠ "" ∧ trim s.formData.joinRoomId ≠ "" ∧
        (s.socket = none ∨ s.isConnected = false)) →
      handleJoinRoom s = ({ s with error := "Not connected to server" }, [])) := by
  have hgood : (trim s.formData.username ≠ "" ∧ trim s.formData.joinRoomId ≠ "" ∧
        s.socket ≠ none ∧ s.isConnected = true) →
      handleJoinRoom s =
        (s, [Emit.joinRoom (trim s.formData.username) (trim s.formData.joinRoomId)]) :=
    fun h => handleJoinRoom_ready s h.1 h.2.1 h.2.2.1 h.2.2.2
  refine ⟨⟨?_, ?_⟩, hgood, fun h => handleJoinRoom_missing s h,
    fun h => handleJoinRoom_offline s h.1 h.2.1 h.2.2⟩
  · rintro ⟨u, r, hmem⟩
    by_contra hn
    by_cases hm : trim s.formData.username = "" ∨ trim s.formData.joinRoomId = ""
    · rw [handleJoinRoom_missing s hm] at hmem
      exact absurd hmem (List.not_mem_nil _)
    · have hu : trim s.formData.username ≠ "" := fun h => hm (Or.inl h)
      have hr : trim s.formData.joinRoomId ≠ "" := fun h => hm (Or.inr h)
      have ho : s.socket = none ∨ s.isConnected = false := by
        by_cases hs : s.socket = none
        · exact Or.inl hs
        · right
          cases hc : s.isConnected
          · rfl
          · exact absurd ⟨hu, hr, hs, hc⟩ hn
      rw [handleJoinRoom_offline s hu hr ho] at hmem
      exact absurd hmem (List.not_mem_nil _)
  · intro h
    exact ⟨_, _, by rw [hgood h]; exact List.mem_singleton.2 rfl⟩

/-- Witness for C5: a connected client submits ` bob`, `abc123`; a disconnected
client submits a form with no room id and gets the missing-input message. -/
theorem handleJoinRoom_emits_iff_witness :
    handleJoinRoom
        { initialState with
          socket := some 1, isConnected := true, formData := ⟨" bob", "", "abc123"⟩ } =
      ({ initialState with
          socket := some 1, isConnected := true, formData := ⟨" bob", "", "abc123"⟩ },
        [Emit.joinRoom "bob" "abc123"]) ∧
    handleJoinRoom { initialState with formData := ⟨"bob", "", "  "⟩ } =
      ({ initialState with
          formData := ⟨"bob", "", "  "⟩,
          error := "Please enter both username and room ID" }, []) :=
  ⟨((handleJoinRoom_emits_iff
      { initialState with
        socket := some 1, isConnected := true, formData := ⟨" bob", "", "abc123"⟩ }).2.1
      (by decide)).trans (by decide),
    (handleJoinRoom_emits_iff { initialState with formData := ⟨"bob", "", "  "⟩ }).2.2.1
      (by decide)⟩

/-! ## Case normalisation of room identifiers (C6) -/

theorem tableOk_true : tableOk = true := by decide!

theorem inRun_iff (a b s n : Nat) :
    inRun a b s n = true ↔ a ≤ n ∧ n ≤ b ∧ (n - a) % s = 0 := by
  simp [inRun, and_assoc]

theorem apart_sound (r q : Nat × Nat × Nat × Nat) (h : apart r q = true) (n : Nat)
    (hn : inRun r.1 r.2.1 r.2.2.1 n = true) :
    ¬ inRun q.1 q.2.1 q.2.2.1 (r.2.2.2 + (n - r.1)) = true := by
  obtain ⟨lo, hi, st, t⟩ := r
  obtain ⟨lo2, hi2, st2, t2⟩ := q
  rw [inRun_iff] at hn ⊢
  simp only [apart, Bool.or_eq_true, Bool.and_eq_true, decide_eq_true_eq, beq_iff_eq] at h
  obtain ⟨h1, h2, h3⟩ := hn
  rintro ⟨g1, g2, g3⟩
  simp only at h h1 h2 h3 g1 g2 g3
  have hpar : (n - lo) % 2 = 0 → (t + (n - lo) - lo2) % 2 = 0 → (t + lo2) % 2 = 1 → False := by
    intro a b c
    omega
  rcases h with (h | h) | ⟨⟨hs, hs2⟩, hp⟩
  · omega
  · omega
  · have e1 : (n - lo) % 2 = 0 := by
      rcases hs with hs | hs
      · rw [hs] at h3; exact h3
      · have : n = lo := by omega
        rw [this]; simp
    have e2 : (t + (n - lo) - lo2) % 2 = 0 := by
      rcases hs2 with hs2 | hs2
      · rw [hs2] at g3; exact g3
      · have : t + (n - lo) = lo2 := by omega
        rw [this]; simp
    exact hpar e1 e2 hp

theorem lowerCode_of_not_mapped (n : Nat)
    (h : ∀ q ∈ lowercaseRanges, ¬ inRun q.1 q.2.1 q.2.2.1 n = true) : lowerCode n = n := by
  unfold lowerCode
  rw [List.find?_eq_none.2 (by simpa using h)]

theorem lowerCode_cases (n : Nat) :
    lowerCode n = n ∨
    ∃ r ∈ lowercaseRanges, inRun r.1 r.2.1 r.2.2.1 n = true ∧ lowerCode n = r.2.2.2 + (n - r.1) := by
  unfold lowerCode
  cases hfind : lowercaseRanges.find? (fun r => inRun r.1 r.2.1 r.2.2.1 n) with
  | none => exact Or.inl rfl
  | some r =>
      right
      exact ⟨r, List.mem_of_find?_eq_some hfind, by simpa using List.find?_some hfind, rfl⟩

theorem lowerCode_image (n : Nat) (hv : n.isValidChar) (h130 : n ≠ 0x130) :
    (lowerCode n).isValidChar ∧ lowerCode n ≠ 0x130 ∧ lowerCode (lowerCode n) = lowerCode n := by
  rcases lowerCode_cases n with e | ⟨r, hr, hn, e⟩
  · rw [e]; exact ⟨hv, h130, e⟩
  · have hall := tableOk_true
    simp only [tableOk, List.all_eq_true, Bool.and_eq_true] at hall
    obtain ⟨hok, hap⟩ := hall r hr
    rw [e]
    have hfix : lowerCode (r.2.2.2 + (n - r.1)) = r.2.2.2 + (n - r.1) :=
      lowerCode_of_not_mapped _ (fun q hq => apart_sound r q (hap q hq) n hn)
    rw [inRun_iff] at hn
    obtain ⟨lo, hi, st, t⟩ := r
    simp only [imageOk, Bool.and_eq_true, Bool.or_eq_true, decide_eq_true_eq] at hok
    simp only at hn hok hfix ⊢
    refine ⟨?_, ?_, hfix⟩
    · unfold Nat.isValidChar
      omega
    · omega

theorem toNat_ofNat_of_valid (m : Nat) (h : m.isValidChar) : (Char.ofNat m).toNat = m := by
  simp [Char.ofNat, h, Char.ofNatAux, Char.toNat, UInt32.toNat]

theorem lowerMapping_of_fixed_code (c : Char) (h130 : c.toNat ≠ 0x130)
    (h : lowerCode c.toNat = c.toNat) : lowerMapping c = [c] := by
  simp [lowerMapping, h130, h]

theorem mem_lowerMapping_fixed (c d : Char) (h : d ∈ lowerMapping c) : lowerMapping d = [d] := by
  unfold lowerMapping at h
  split at h
  · have hi : lowerMapping 'i' = ['i'] := by decide!
    have hdot : lowerMapping (Char.ofNat 0x307) = [Char.ofNat 0x307] := by decide!
    simp only [List.mem_cons, List.mem_singleton, List.not_mem_nil, or_false] at h
    rcases h with rfl | rfl
    · exact hi
    · exact hdot
  · rename_i h130
    rw [List.mem_singleton] at h
    obtain ⟨hv, hne, hfix⟩ := lowerCode_image c.toNat c.valid h130
    have hto : d.toNat = lowerCode c.toNat := by rw [h]; exact toNat_ofNat_of_valid _ hv
    apply lowerMapping_of_fixed_code
    · rw [hto]; exact hne
    · rw [hto]; exact hfix

theorem mem_lowerChars_fixed (l before : List Char) (d : Char) (h : d ∈ lowerChars before l) :
    lowerMapping d = [d] := by
  induction l generalizing before with
  | nil => simp [lowerChars] at h
  | cons c after ih =>
      simp only [lowerChars, List.mem_append] at h
      rcases h with h | h
      · split at h
        · have h1 : lowerMapping 'ς' = ['ς'] := by decide!
          have h2 : lowerMapping 'σ' = ['σ'] := by decide!
          split at h <;> (rw [List.mem_singleton] at h; subst h) <;> assumption
        · exact mem_lowerMapping_fixed c d h
      · exact ih _ h

theorem lowerChars_of_fixed (l before : List Char) (h : ∀ c ∈ l, lowerMapping c = [c]) :
    lowerChars before l = l := by
  induction l generalizing before with
  | nil => rfl
  | cons c after ih =>
      have hc := h c (List.mem_cons_self _ _)
      have hne : c ≠ 'Σ' := by
        intro e
        have hs : lowerMapping 'Σ' = ['σ'] := by decide!
        rw [e, hs] at hc
        exact absurd hc (by decide)
      simp only [lowerChars, if_neg hne, hc]
      rw [ih _ (fun x hx => h x (List.mem_cons_of_mem _ hx))]
      rfl

theorem toLowerCase_fixed (v : String) (c : Char) (h : c ∈ (toLowerCase v).data) :
    lowerMapping c = [c] :=
  mem_lowerChars_fixed _ _ c h

theorem toLowerCase_of_fixed (v : String) (h : ∀ c ∈ v.data, lowerMapping c = [c]) :
    toLowerCase v = v := by
  show String.mk (lowerChars [] v.data) = v
  rw [lowerChars_of_fixed _ _ h]

theorem toLowerCase_idem (v : String) : toLowerCase (toLowerCase v) = toLowerCase v :=
  toLowerCase_of_fixed _ (toLowerCase_fixed v)


theorem trimChars_subset (cs : List Char) : trimChars cs ⊆ cs := by
  intro c hc
  unfold trimChars at hc
  rw [List.mem_reverse] at hc
  have h1 := List.dropWhile_subset isWhiteSpace hc
  rw [List.mem_reverse] at h1
  exact List.dropWhile_subset isWhiteSpace h1

theorem fixed_of_lowerCased (s : AppState) (h : LowerCased s) :
    ∀ c ∈ (trim s.formData.joinRoomId).data, lowerMapping c = [c] := by
  intro c hc
  have hc2 : c ∈ s.formData.joinRoomId.data := trimChars_subset _ hc
  rw [← h] at hc2
  exact toLowerCase_fixed _ c hc2

theorem not_basic_capital_of_fixed (c : Char) (h : lowerMapping c = [c]) :
    ¬ (65 ≤ c.toNat ∧ c.toNat ≤ 90) := by
  rintro ⟨h65, h90⟩
  have h2 : lowerMapping (Char.ofNat c.toNat) = [Char.ofNat c.toNat] := by
    rw [Char.ofNat_toNat]; exact h
  generalize c.toNat = n at h65 h90 h2
  interval_cases n <;> revert h2 <;> decide!

theorem step_formData (s : AppState) (a : Action) :
    (step s a).1.formData = s.formData ∨
    (step s a).1.formData = emptyForm ∨
    (∃ v, (step s a).1.formData = { s.formData with username := v }) ∨
    (∃ v, (step s a).1.formData = { s.formData with roomName := v }) ∨
    (∃ v, (step s a).1.formData = { s.formData with joinRoomId := toLowerCase v }) := by
  cases a with
  | inputUsername v => exact Or.inr (Or.inr (Or.inl ⟨v, rfl⟩))
  | inputRoomName v => exact Or.inr (Or.inr (Or.inr (Or.inl ⟨v, rfl⟩)))
  | inputJoinRoomId v => exact Or.inr (Or.inr (Or.inr (Or.inr ⟨v, rfl⟩)))
  | kicked m => exact Or.inr (Or.inl rfl)
  | roomClosed m => exact Or.inr (Or.inl rfl)
  | cancelRequest => exact Or.inr (Or.inl rfl)
  | submitCreateRoom =>
      left; simp only [step, handleCreateRoom]; split <;> [rfl; (split <;> rfl)]
  | submitJoinRoom =>
      left; simp only [step, handleJoinRoom]; split <;> [rfl; (split <;> rfl)]
  | submitSendMessage => left; simp only [step, handleSendMessage]; split <;> rfl
  | approveUser u => left; simp only [step, handleApproveUser]; split <;> rfl
  | rejectUser u => left; simp only [step, handleRejectUser]; split <;> rfl
  | kickUser u confirm => left; simp only [step, handleKickUser]; split <;> rfl
  | leaveRoom confirm =>
      simp only [step, handleLeaveRoom]
      split
      · split
        · exact Or.inr (Or.inl rfl)
        · exact Or.inl rfl
      · exact Or.inl rfl
  | copyRoomId ok => left; simp only [step, copyRoomId]; split <;> rfl
  | downloadChatArchive f g => left; simp only [step, downloadChatArchive]; split <;> rfl
  | _ => exact Or.inl rfl

theorem step_lowerCased (s : AppState) (a : Action) (h : LowerCased s) :
    LowerCased (step s a).1 := by
  unfold LowerCased at *
  rcases step_formData s a with e | e | ⟨v, e⟩ | ⟨v, e⟩ | ⟨v, e⟩ <;> rw [e]
  · exact h
  · rfl
  · exact h
  · exact h
  · exact toLowerCase_idem v

theorem run_lowerCased (as : List Action) (s : AppState) (h : LowerCased s) :
    LowerCased (run s as).1 := by
  induction as generalizing s with
  | nil => exact h
  | cons a as ih => exact ih _ (step_lowerCased s a h)

theorem Reachable.lowerCased {s : AppState} (h : Reachable s) : LowerCased s := by
  obtain ⟨as, rfl⟩ := h
  exact run_lowerCased as initialState rfl

theorem step_joinRoom_payload (s : AppState) (a : Action) (u r : String)
    (h : Emit.joinRoom u r ∈ (step s a).2) : r = trim s.formData.joinRoomId := by
  cases a with
  | submitJoinRoom =>
      simp only [step, handleJoinRoom] at h
      split at h
      · simp at h
      · split at h
        · simp at h
        · simp at h; exact h.2
  | submitCreateRoom =>
      simp only [step, handleCreateRoom] at h
      split at h
      · simp at h
      · split at h <;> simp at h
  | submitSendMessage => simp only [step, handleSendMessage] at h; split at h <;> simp at h
  | approveUser x => simp only [step, handleApproveUser] at h; split at h <;> simp at h
  | rejectUser x => simp only [step, handleRejectUser] at h; split at h <;> simp at h
  | kickUser x confirm => simp only [step, handleKickUser] at h; split at h <;> simp at h
  | leaveRoom confirm =>
      simp only [step, handleLeaveRoom] at h
      split at h
      · split at h <;> simp at h
      · simp at h
  | _ => simp [step] at h

theorem run_joinRoom_fixed (as : List Action) (s : AppState) (h : LowerCased s)
    (u r : String) (hm : Emit.joinRoom u r ∈ (run s as).2) :
    ∀ c ∈ r.data, lowerMapping c = [c] := by
  induction as generalizing s with
  | nil => simp [run] at hm
  | cons a as ih =>
      simp only [run, List.mem_append] at hm
      rcases hm with hm | hm
      · rw [step_joinRoom_payload s a u r hm]
        exact fixed_of_lowerCased s h
      · exact ih _ (step_lowerCased s a h) hm

/-- C6 (counterexample): a connected client types the name `bob` and the room id
`ℂ` (U+2102) and submits. `ℂ` is an upper-case letter and lower-casing leaves it as
it is, so the `joinRoom` event carries the room id `ℂ`: an emitted room id holds
an upper-case letter. -/
theorem upper_case_letter_is_sent :
    isUpperCase 'ℂ' = true ∧
    toLowerCase "ℂ" = "ℂ" ∧
    (run initialState typeDoubleStruckC).1.formData.joinRoomId = "ℂ" ∧
    (run initialState typeDoubleStruckC).2 = [Emit.joinRoom "bob" "ℂ"] ∧
    ¬ (∀ u r : String, Emit.joinRoom u r ∈ (run initialState typeDoubleStruckC).2 →
        ∀ c ∈ r.data, isUpperCase c = false) := by
  have hrun : (run initialState typeDoubleStruckC).2 = [Emit.joinRoom "bob" "ℂ"] := by decide!
  refine ⟨by decide!, by decide!, by decide!, hrun, fun hall => ?_⟩
  have hc := hall "bob" "ℂ" (by rw [hrun]; exact List.mem_singleton.2 rfl) 'ℂ'
    (List.mem_singleton.2 rfl)
  exact absurd hc (by decide!)

/-- C6 (amended): the room id is lower-cased on the client, by the Unicode
lower-casing of `toLowerCase`. Typing `v` into the room-id field stores
`toLowerCase v`; along every sequence of actions from the first render the field
equals its own lower-casing; a `joinRoom` event emitted right after typing `v`
carries `trim (toLowerCase v)`; and every room id emitted along the way equals its
own lower-casing and holds only characters that lower-casing leaves as they are,
so none of `A` to `Z` and no upper-case letter that has a lower-case counterpart.
Text that is already in lower case is stored as typed; ` AbC-ÀÇ9 ` is sent as
`abc-àç9`. -/
theorem joinRoomId_case_normalised (as : List Action) :
    toLowerCase (run initialState as).1.formData.joinRoomId =
      (run initialState as).1.formData.joinRoomId ∧
    (∀ (s : AppState) (v : String),
      (step s (Action.inputJoinRoomId v)).1.formData.joinRoomId = toLowerCase v) ∧
    (∀ (s : AppState) (v u r : String),
      Emit.joinRoom u r ∈
        (step (step s (Action.inputJoinRoomId v)).1 Action.submitJoinRoom).2 →
      r = trim (toLowerCase v)) ∧
    (∀ u r : String, Emit.joinRoom u r ∈ (run initialState as).2 →
      toLowerCase r = r ∧
      (∀ c ∈ r.data, lowerMapping c = [c]) ∧
      (∀ c ∈ r.data, ¬ (65 ≤ c.toNat ∧ c.toNat ≤ 90)) ∧
      (∀ c ∈ r.data, isUpperCase c = true → lowerMapping c = [c])) ∧
    (∀ v : String, (∀ c ∈ v.data, lowerMapping c = [c]) → toLowerCase v = v) ∧
    toLowerCase "AbC-ÀÇ9 İD ΌΣΟΣ" = "abc-àç9 i̇d όσος" ∧
    (run initialState typeMixedCase).2 = [Emit.joinRoom "bob" "abc-àç9"] := by
  refine ⟨Reachable.lowerCased ⟨as, rfl⟩, fun s v => rfl, fun s v u r hm => ?_,
    fun u r hm => ?_, toLowerCase_of_fixed, by decide!, by decide!⟩
  · exact step_joinRoom_payload _ _ u r hm
  · have hfix := run_joinRoom_fixed as initialState rfl u r hm
    exact ⟨toLowerCase_of_fixed r hfix, hfix,
      fun c hc => not_basic_capital_of_fixed c (hfix c hc), fun c hc _ => hfix c hc⟩

/-! ## Optimistic removal of a join request (C7) -/

/-- C7: with a socket present, `handleApproveUser(u)` and `handleRejectUser(u)`
each emit exactly one event (`approveUser`, respectively `rejectUser`, carrying
`u`) and replace the pending-request list `R` by `R` filtered to the entries whose
`userId` differs from `u`; the new list is a sublist of `R` (relative order
kept), holds exactly the entries of `R` with another id, and no entry with id `u`;
participants and messages are unchanged. With no socket, both return the state
unchanged and emit nothing. -/
theorem approve_reject_remove_request (s : AppState) (u : String) :
    (s.socket ≠ none →
      handleApproveUser s u =
        ({ s with joinRequests := s.joinRequests.filter fun req => decide (req.userId ≠ u) },
          [Emit.approveUser u]) ∧
      handleRejectUser s u =
        ({ s with joinRequests := s.joinRequests.filter fun req => decide (req.userId ≠ u) },
          [Emit.rejectUser u]) ∧
      (handleRejectUser s u).1 = (handleApproveUser s u).1 ∧
      (∀ req ∈ (handleApproveUser s u).1.joinRequests, req.userId ≠ u) ∧
      (∀ req, req ∈ (handleApproveUser s u).1.joinRequests ↔
        req ∈ s.joinRequests ∧ req.userId ≠ u) ∧
      (handleApproveUser s u).1.joinRequests.Sublist s.joinRequests ∧
      (handleApproveUser s u).1.users = s.users ∧
      (handleApproveUser s u).1.messages = s.messages) ∧
    (s.socket = none → handleApproveUser s u = (s, []) ∧ handleRejectUser s u = (s, [])) := by
  constructor
  · intro hs
    have hsome : s.socket.isSome = true := by
      cases h : s.socket with
      | none => exact absurd h hs
      | some k => rfl
    have hf : (fun req : JoinRequest => req.userId != u) =
        fun req => decide (req.userId ≠ u) := by
      funext req
      by_cases h : req.userId = u <;> simp [h]
    have ha : handleApproveUser s u =
        ({ s with joinRequests := s.joinRequests.filter fun req => decide (req.userId ≠ u) },
          [Emit.approveUser u]) := by
      unfold handleApproveUser
      rw [if_pos hsome, hf]
    have hr : handleRejectUser s u =
        ({ s with joinRequests := s.joinRequests.filter fun req => decide (req.userId ≠ u) },
          [Emit.rejectUser u]) := by
      unfold handleRejectUser
      rw [if_pos hsome, hf]
    refine ⟨ha, hr, by rw [ha, hr], ?_, ?_, ?_, by rw [ha], by rw [ha]⟩
    · intro req hreq
      rw [ha] at hreq
      simpa using (List.mem_filter.1 hreq).2
    · intro req
      rw [ha]
      simp [List.mem_filter]
    · rw [ha]
      exact List.filter_sublist _
  · intro hs
    simp [handleApproveUser, handleRejectUser, hs]

/-- Witness for C7: two pending requests, the first one approved or rejected. -/
theorem approve_reject_remove_request_witness :
    handleApproveUser
        { initialState with socket := some 1, joinRequests := [⟨"u2", "bob"⟩, ⟨"u3", "eve"⟩] }
        "u2" =
      ({ initialState with socket := some 1, joinRequests := [⟨"u3", "eve"⟩] },
        [Emit.approveUser "u2"]) ∧
    handleApproveUser initialState "u2" = (initialState, []) :=
  ⟨((approve_reject_remove_request
      { initialState with socket := some 1, joinRequests := [⟨"u2", "bob"⟩, ⟨"u3", "eve"⟩] }
      "u2").1 (by decide)).1.trans (by decide),
    ((approve_reject_remove_request initialState "u2").2 rfl).1⟩

/-! ## Clearing the room state (C8, C9, C10) -/

/-- C8: after the `kicked` handler and after the `roomClosed` handler the client is
in the home view and the room state is cleared: `roomId`, `userId`, `username`
and `roomName` are empty, `isCreator` is false, and messages, participants and
pending requests are empty. -/
theorem kicked_roomClosed_clear (s : AppState) (message : String) :
    (onKicked s message).currentView = "home" ∧ RoomCleared (onKicked s message) ∧
    (onRoomClosed s message).currentView = "home" ∧ RoomCleared (onRoomClosed s message) ∧
    (step s (Action.kicked message)).2 = [] ∧ (step s (Action.roomClosed message)).2 = [] :=
  ⟨rfl, ⟨rfl, rfl, rfl, rfl, rfl, rfl, rfl, rfl⟩, rfl, ⟨rfl, rfl, rfl, rfl, rfl, rfl, rfl, rfl⟩,
    rfl, rfl⟩

/-- C9 (the code at the failing input): a client waiting for approval in room
`abc123` as user `u2`, `bob`, handles `joinRejected`: the view becomes home, but
`roomId`, `userId` and `username` keep their values, whereas `kicked` on the same
state empties them. -/
theorem joinRejected_keeps_binding :
    waitingBob.currentView = "waiting" ∧
    (onJoinRejected waitingBob "Request denied").currentView = "home" ∧
    (onJoinRejected waitingBob "Request denied").roomId = "abc123" ∧
    (onJoinRejected waitingBob "Request denied").userId = "u2" ∧
    (onJoinRejected waitingBob "Request denied").username = "bob" ∧
    (onKicked waitingBob "Request denied").roomId = "" ∧
    (onKicked waitingBob "Request denied").userId = "" ∧
    (onKicked waitingBob "Request denied").username = "" := by
  decide

/-- C10: with a socket present and the confirmation accepted, `handleLeaveRoom`
emits the single event `leaveRoom`, sets the view to home and clears the room
state; with no socket, or the confirmation declined, it emits nothing and
returns the state unchanged. The state may be a creator's or not: only the text
shown to `confirm` depends on `isCreator`. -/
theorem handleLeaveRoom_all_or_nothing (s : AppState) (confirm : String → Bool) :
    ((s.socket ≠ none ∧ confirm (confirmMessage s) = true) →
      handleLeaveRoom s confirm = (resetState { s with currentView := "home" }, [Emit.leaveRoom]) ∧
      (handleLeaveRoom s confirm).1.currentView = "home" ∧
      RoomCleared (handleLeaveRoom s confirm).1) ∧
    ((s.socket = none ∨ confirm (confirmMessage s) = false) →
      handleLeaveRoom s confirm = (s, [])) := by
  constructor
  · rintro ⟨hs, hc⟩
    have hsome : s.socket.isSome = true := by
      cases h : s.socket with
      | none => exact absurd h hs
      | some k => rfl
    have e : handleLeaveRoom s confirm =
        (resetState { s with currentView := "home" }, [Emit.leaveRoom]) := by
      unfold handleLeaveRoom
      rw [if_pos hsome, if_pos hc]
    rw [e]
    exact ⟨rfl, rfl, rfl, rfl, rfl, rfl, rfl, rfl, rfl, rfl⟩
  · rintro (hs | hc)
    · simp [handleLeaveRoom, hs]
    · unfold handleLeaveRoom
      split
      · rw [if_neg (by simp [hc])]
      · rfl

/-- Witness for C10: a creator with a socket accepts the dialog; a client without
a socket keeps its state. -/
theorem handleLeaveRoom_all_or_nothing_witness :
    handleLeaveRoom { waitingBob with socket := some 1, isCreator := true } (fun _ => true) =
      ({ initialState with socket := some 1 }, [Emit.leaveRoom]) ∧
    handleLeaveRoom waitingBob (fun _ => true) = (waitingBob, []) :=
  ⟨((handleLeaveRoom_all_or_nothing
      { waitingBob with socket := some 1, isCreator := true } (fun _ => true)).1
      ⟨by decide, rfl⟩).1.trans (by decide),
    (handleLeaveRoom_all_or_nothing waitingBob (fun _ => true)).2 (Or.inl rfl)⟩

/-! ## The archive export (C11, C12, C13) -/

theorem intercalate_go_data (sep : String) (as : List String) (acc : String) :
    (String.intercalate.go acc sep as).data =
      acc.data ++ (as.map fun a => sep.data ++ a.data).flatten := by
  induction as generalizing acc with
  | nil => simp [String.intercalate.go]
  | cons a as ih => simp [String.intercalate.go, ih, String.data_append, List.append_assoc]

theorem intercalate_cons_cons (sep a b : String) (l : List String) :
    String.intercalate sep (a :: b :: l) = a ++ sep ++ String.intercalate sep (b :: l) := by
  apply String.ext
  simp [String.intercalate, intercalate_go_data, String.data_append, List.append_assoc]

theorem chatData_eq (f : Nat → String) (M : List Message) :
    chatData f M = String.intercalate "\n" (M.map (archiveEntry f)) := rfl

theorem downloadChatArchive_admin (f : Nat → String) (g : String) (s : AppState)
    (hc : s.isCreator = true) (hne : s.messages ≠ []) :
    downloadChatArchive f g s =
      (showSuccess s "Chat archive downloaded successfully",
        some (header g s ++ chatData f s.messages)) := by
  unfold downloadChatArchive
  rw [if_neg]
  simp [hc, hne]

theorem downloadChatArchive_guard (f : Nat → String) (g : String) (s : AppState)
    (h : s.isCreator = false ∨ s.messages = []) :
    downloadChatArchive f g s = (s, none) := by
  unfold downloadChatArchive
  rw [if_pos]
  rcases h with h | h <;> simp [h]

/-- C11: for an administrator with a non-empty message list the archive text is the
header (room name, or room id when the name is empty; generation time; number of
messages; fifty `=`; a blank line) followed by the entries
`[timestamp] username: message` in list order joined by `\n`: a single entry
stands alone, and an entry with a successor is followed by one `\n` and the rest.
There are as many entries as the header counts. -/
theorem archive_text (f : Nat → String) (g : String) (s : AppState)
    (hc : s.isCreator = true) (hne : s.messages ≠ []) :
    (downloadChatArchive f g s).2 =
      some ("RedChat Archive - Room: " ++ (if s.roomName = "" then s.roomId else s.roomName) ++
        "\nGenerated: " ++ g ++
        "\nTotal Messages: " ++ toString s.messages.length ++
        "\n" ++ "==================================================" ++ "\n\n" ++
        String.intercalate "\n"
          (s.messages.map fun m =>
            "[" ++ f m.timestamp ++ "] " ++ m.username ++ ": " ++ m.message)) ∧
    (s.messages.map (archiveEntry f)).length = s.messages.length ∧
    (∀ m : Message, chatData f [m] = archiveEntry f m) ∧
    (∀ (m m2 : Message) (rest : List Message),
      chatData f (m :: m2 :: rest) = archiveEntry f m ++ "\n" ++ chatData f (m2 :: rest)) := by
  refine ⟨?_, by simp, fun m => rfl, fun m m2 rest => ?_⟩
  · rw [downloadChatArchive_admin f g s hc hne]
    have h50 : String.mk (List.replicate 50 '=') =
        "==================================================" := by decide
    have hname : (if falsy s.roomName then s.roomId else s.roomName) =
        (if s.roomName = "" then s.roomId else s.roomName) := by
      by_cases h : s.roomName = ""
      · rw [if_pos h, if_pos ((falsy_iff _).2 h)]
      · rw [if_neg h, if_neg (fun hf => h ((falsy_iff _).1 hf))]
    simp only [header, h50, hname]
    rfl
  · simp only [chatData_eq, List.map_cons]
    exact intercalate_cons_cons _ _ _ _

/-- Witness for C11: the archive of two messages in the room named `standup`. -/
theorem archive_text_witness :
    (downloadChatArchive (fun t => toString t) "now"
        { initialState with
          isCreator := true, roomId := "abc123", roomName := "standup",
          messages := [⟨"m1", "u1", "alice", "hi", 7⟩, ⟨"m2", "u2", "bob", "yo", 8⟩] }).2 =
      some ("RedChat Archive - Room: standup\nGenerated: now\nTotal Messages: 2\n" ++
        "==================================================\n\n" ++
        "[7] alice: hi\n[8] bob: yo") :=
  ((archive_text (fun t => toString t) "now"
      { initialState with
        isCreator := true, roomId := "abc123", roomName := "standup",
        messages := [⟨"m1", "u1", "alice", "hi", 7⟩, ⟨"m2", "u2", "bob", "yo", 8⟩] }
      rfl (by decide)).1).trans (by decide)

theorem splitLines_of_no_newline (l : List Char) (h : '\n' ∉ l) : splitLines l = [l] := by
  induction l with
  | nil => rfl
  | cons c cs ih =>
      have hc : c ≠ '\n' := fun e => h (e ▸ List.mem_cons_self _ _)
      have hcs : '\n' ∉ cs := fun m => h (List.mem_cons_of_mem _ m)
      simp [splitLines, hc, ih hcs]

theorem splitLines_append_newline (l rest : List Char) (h : '\n' ∉ l) :
    splitLines (l ++ '\n' :: rest) = l :: splitLines rest := by
  induction l with
  | nil => simp [splitLines]
  | cons c cs ih =>
      have hc : c ≠ '\n' := fun e => h (e ▸ List.mem_cons_self _ _)
      have hcs : '\n' ∉ cs := fun m => h (List.mem_cons_of_mem _ m)
      simp [splitLines, hc, ih hcs]

theorem lines_intercalate (es : List String) (hne : es ≠ [])
    (h : ∀ e ∈ es, '\n' ∉ e.data) : lines (String.intercalate "\n" es) = es := by
  induction es with
  | nil => exact absurd rfl hne
  | cons a rest ih =>
      cases rest with
      | nil =>
          have ha := h a (List.mem_cons_self _ _)
          simp [lines, String.intercalate, String.intercalate.go, splitLines_of_no_newline _ ha]
      | cons b l =>
          have ha := h a (List.mem_cons_self _ _)
          have hrest := ih (by simp) (fun e he => h e (List.mem_cons_of_mem _ he))
          rw [intercalate_cons_cons]
          unfold lines at hrest ⊢
          have hd : (a ++ "\n" ++ String.intercalate "\n" (b :: l)).data =
              a.data ++ '\n' :: (String.intercalate "\n" (b :: l)).data := by
            simp [String.data_append]
          rw [hd, splitLines_append_newline _ _ ha, List.map_cons, hrest]

/-- C12 (counterexample): an administrator holds one message whose text is `a`,
line feed, `b`; the body of the archive is the two lines `[t] bob: a` and `b`, so
the number of lines is not the number of messages. -/
theorem archive_lines_counterexample :
    twoLineArchive.isCreator = true ∧ twoLineArchive.messages.length = 1 ∧
    (downloadChatArchive (fun _ => "t") "now" twoLineArchive).2 =
      some (header "now" twoLineArchive ++
        chatData (fun _ => "t") twoLineArchive.messages) ∧
    lines (chatData (fun _ => "t") twoLineArchive.messages) = ["[t] bob: a", "b"] ∧
    ¬ (lines (chatData (fun _ => "t") twoLineArchive.messages)).length =
      twoLineArchive.messages.length := by
  refine ⟨rfl, rfl, ?_, by decide, by decide⟩
  rw [downloadChatArchive_admin _ _ _ rfl (by decide)]

/-- C12 (amended): for an administrator with a non-empty message list of which no
entry `[timestamp] username: message` contains a line feed, the archive text is the
header followed by a body of exactly as many lines as there are messages, the
i-th line being the entry of the i-th message. -/
theorem archive_lines (f : Nat → String) (g : String) (s : AppState)
    (hc : s.isCreator = true) (hne : s.messages ≠ [])
    (hnl : ∀ m ∈ s.messages, '\n' ∉ (archiveEntry f m).data) :
    (downloadChatArchive f g s).2 = some (header g s ++ chatData f s.messages) ∧
    lines (chatData f s.messages) = s.messages.map (archiveEntry f) ∧
    (lines (chatData f s.messages)).length = s.messages.length := by
  have hl : lines (chatData f s.messages) = s.messages.map (archiveEntry f) := by
    rw [chatData_eq]
    apply lines_intercalate
    · simpa using hne
    · intro e he
      obtain ⟨m, hm, rfl⟩ := List.mem_map.1 he
      exact hnl m hm
  refine ⟨?_, hl, by rw [hl, List.length_map]⟩
  rw [downloadChatArchive_admin f g s hc hne]

/-- Witness for C12: two one-line messages give a body of two lines. -/
theorem archive_lines_witness :
    lines (chatData (fun _ => "t")
      [⟨"m1", "u1", "alice", "hi", 7⟩, ⟨"m2", "u2", "bob", "yo", 8⟩]) =
      ["[t] alice: hi", "[t] bob: yo"] :=
  (archive_lines (fun _ => "t") "now"
    { initialState with
      isCreator := true,
      messages := [⟨"m1", "u1", "alice", "hi", 7⟩, ⟨"m2", "u2", "bob", "yo", 8⟩] }
    rfl (by decide) (by decide)).2.1

/-- C13: a client that is not the creator, or whose message list is empty, gets no
archive text and its state is unchanged (no success message); a creator with a
non-empty list gets an archive text and the success message. The Archive button
is rendered exactly in the chat view of a creator with a non-empty list. -/
theorem archive_admin_only (f : Nat → String) (g : String) (s : AppState) :
    ((s.isCreator = false ∨ s.messages = []) → downloadChatArchive f g s = (s, none)) ∧
    ((s.isCreator = true ∧ s.messages ≠ []) →
      (downloadChatArchive f g s).2 = some (header g s ++ chatData f s.messages) ∧
      (downloadChatArchive f g s).1 = { s with success := "Chat archive downloaded successfully" }) ∧
    ((downloadChatArchive f g s).2 ≠ none ↔ (s.isCreator = true ∧ s.messages ≠ [])) ∧
    (Control.archive ∈ render s ↔
      (s.currentView = "chat" ∧ s.isCreator = true ∧ s.messages ≠ [])) := by
  refine ⟨downloadChatArchive_guard f g s, ?_, ?_, ?_⟩
  · rintro ⟨hc, hne⟩
    rw [downloadChatArchive_admin f g s hc hne]
    exact ⟨rfl, rfl⟩
  · constructor
    · intro h
      by_contra hn
      have hg : s.isCreator = false ∨ s.messages = [] := by
        by_cases hm : s.messages = []
        · exact Or.inr hm
        · left
          cases hc : s.isCreator
          · rfl
          · exact absurd ⟨hc, hm⟩ hn
      rw [downloadChatArchive_guard f g s hg] at h
      exact h rfl
    · rintro ⟨hc, hne⟩
      rw [downloadChatArchive_admin f g s hc hne]
      simp
  · unfold render
    by_cases h1 : s.currentView = "home"
    · simp [h1]
    · by_cases h2 : s.currentView = "waiting"
      · simp [h2]
      · by_cases h3 : s.currentView = "chat"
        · have hside : Control.archive ∉ sidebar s := by
            have hp : ∀ (us : List User) (i : Nat),
                Control.archive ∉ participantControls s i us := by
              intro us
              induction us with
              | nil => intro i; simp [participantControls]
              | cons u us ih =>
                  intro i
                  simp only [participantControls, List.mem_append, not_or]
                  exact ⟨by split <;> simp, ih _⟩
            have hr : ∀ rs : List JoinRequest, Control.archive ∉ requestControls rs := by
              intro rs
              induction rs with
              | nil => simp [requestControls]
              | cons r rs ih => simp [requestControls, ih]
            simp only [sidebar, List.mem_append, not_or]
            exact ⟨⟨by split <;> simp [hr], hp _ _⟩, by simp⟩
          cases hc : s.isCreator <;> cases hm : s.messages <;> cases hs : s.showSettings <;>
            simp [h3, hc, hm, hs, hside]
        · simp [h1, h2, h3]

/-- Witness for C13: a participant with messages gets nothing; a creator with one
message gets the archive. -/
theorem archive_admin_only_witness :
    downloadChatArchive (fun _ => "t") "now" { twoLineArchive with isCreator := false } =
      ({ twoLineArchive with isCreator := false }, none) ∧
    (downloadChatArchive (fun _ => "t") "now" twoLineArchive).2 =
      some (header "now" twoLineArchive ++ chatData (fun _ => "t") twoLineArchive.messages) :=
  ⟨(archive_admin_only (fun _ => "t") "now" { twoLineArchive with isCreator := false }).1
      (Or.inl rfl),
    ((archive_admin_only (fun _ => "t") "now" twoLineArchive).2.1 ⟨rfl, by decide⟩).1⟩

/-! ## Administrator controls (C14, C15) -/

theorem isRoomCreator_iff (s : AppState) (user : User) :
    isRoomCreator s user = true ↔ (s.isCreator = true ∧ user.username ≠ s.username) := by
  simp [isRoomCreator, isCurrentUser]

/-- C14 (the code at the failing input): the administrator `alice`, user id `u1`,
has the sidebar open on the participants `u1` `alice`, `u2` `alice`, `u3` `bob`.
The remove button is rendered for `u3` only: the entry of `u2`, another member
with the administrator's display name, gets none, because the guard compares
display names (in every state it holds exactly when the client is the creator
and the entry's `username` differs from the client's). -/
theorem kick_control_by_username :
    sameNameRoom.isCreator = true ∧ sameNameRoom.userId = "u1" ∧
    sameNameRoom.users = [⟨"u1", "alice"⟩, ⟨"u2", "alice"⟩, ⟨"u3", "bob"⟩] ∧
    isRoomCreator sameNameRoom ⟨"u2", "alice"⟩ = false ∧
    participantControls sameNameRoom 0 sameNameRoom.users = [Control.kick "u3"] ∧
    Control.kick "u2" ∉ render sameNameRoom ∧
    Control.kick "u3" ∈ render sameNameRoom ∧
    Control.kick "u1" ∉ render sameNameRoom ∧
    (∀ (s : AppState) (user : User),
      isRoomCreator s user = true ↔ (s.isCreator = true ∧ user.username ≠ s.username)) := by
  refine ⟨rfl, rfl, rfl, by decide, by decide, by decide, by decide, by decide,
    isRoomCreator_iff⟩

theorem participantControls_of_participant (s : AppState) (h : s.isCreator = false)
    (us : List User) (i : Nat) : participantControls s i us = [] := by
  induction us generalizing i with
  | nil => rfl
  | cons u us ih => simp [participantControls, isRoomCreator, h, ih]

theorem render_of_participant (s : AppState) (h : s.isCreator = false) (c : Control)
    (hc : c ∈ render s) :
    c ∈ [Control.usernameInput, Control.roomNameInput, Control.createRoomForm,
      Control.joinRoomIdInput, Control.joinRoomForm, Control.cancelRequest, Control.copyRoomId,
      Control.settings, Control.leave, Control.messageInput, Control.messageForm] := by
  unfold render at hc
  split at hc
  · simp at hc; simp; tauto
  · split at hc
    · simp at hc; simp [hc]
    · split at hc
      · simp only [h, sidebar, participantControls_of_participant s h, Bool.false_and] at hc
        cases hs : s.showSettings <;> simp [hs] at hc <;> simp <;> tauto
      · simp at hc

theorem step_adminOp (s : AppState) (a : Action) (e : Emit) (he : e ∈ (step s a).2)
    (hop : e.isAdminOp = true) :
    ∃ u, a.control = some (Control.approve u) ∨ a.control = some (Control.reject u) ∨
      a.control = some (Control.kick u) := by
  cases a with
  | approveUser u => exact ⟨u, Or.inl rfl⟩
  | rejectUser u => exact ⟨u, Or.inr (Or.inl rfl)⟩
  | kickUser u confirm => exact ⟨u, Or.inr (Or.inr rfl)⟩
  | submitJoinRoom =>
      simp only [step, handleJoinRoom] at he
      split at he
      · simp at he
      · split at he
        · simp at he
        · simp at he; subst he; simp [Emit.isAdminOp] at hop
  | submitCreateRoom =>
      simp only [step, handleCreateRoom] at he
      split at he
      · simp at he
      · split at he
        · simp at he
        · simp at he; subst he; simp [Emit.isAdminOp] at hop
  | submitSendMessage =>
      simp only [step, handleSendMessage] at he
      split at he
      · simp at he
      · simp at he; subst he; simp [Emit.isAdminOp] at hop
  | leaveRoom confirm =>
      simp only [step, handleLeaveRoom] at he
      split at he
      · split at he
        · simp at he; subst he; simp [Emit.isAdminOp] at hop
        · simp at he
      · simp at he
  | _ => simp [step] at he

/-- C15: in every state with `isCreator = false` the rendered view holds no approve,
reject or remove control, and no user action offered there makes the client emit
`approveUser`, `rejectUser` or `kickUser`. -/
theorem participant_no_admin_operation (s : AppState) (h : s.isCreator = false) :
    (∀ u : String, Control.approve u ∉ render s ∧ Control.reject u ∉ render s ∧
      Control.kick u ∉ render s) ∧
    (∀ a : Action, offered s a = true → ∀ e ∈ (step s a).2, e.isAdminOp = false) := by
  have hno : ∀ u : String, Control.approve u ∉ render s ∧ Control.reject u ∉ render s ∧
      Control.kick u ∉ render s := by
    intro u
    refine ⟨fun hc => ?_, fun hc => ?_, fun hc => ?_⟩
    · exact absurd (render_of_participant s h _ hc) (by simp)
    · exact absurd (render_of_participant s h _ hc) (by simp)
    · exact absurd (render_of_participant s h _ hc) (by simp)
  refine ⟨hno, fun a ha e he => ?_⟩
  cases hop : e.isAdminOp
  · rfl
  · exfalso
    obtain ⟨u, hu | hu | hu⟩ := step_adminOp s a e he hop <;>
      simp [offered, hu] at ha
    · exact (hno u).1 ha
    · exact (hno u).2.1 ha
    · exact (hno u).2.2 ha

/-- Witness for C15: a participant with the sidebar open and a pending request in
its list sees no approve control, while the creator sees it. -/
theorem participant_no_admin_operation_witness :
    Control.approve "u9" ∉
      render { sameNameRoom with isCreator := false, joinRequests := [⟨"u9", "eve"⟩] } ∧
    Control.approve "u9" ∈ render { sameNameRoom with joinRequests := [⟨"u9", "eve"⟩] } :=
  ⟨((participant_no_admin_operation
      { sameNameRoom with isCreator := false, joinRequests := [⟨"u9", "eve"⟩] } rfl).1 "u9").1,
    by decide⟩

/-! ## The binding set by the server's events (C16) -/

/-- C16: after `roomCreated`, `waitingForApproval` and `joinApproved` the client's
`roomId`, `userId` and `username` are those of the payload; `roomCreated` and
`joinApproved` also take `isCreator` from the payload; `waitingForApproval` leaves
`isCreator`, the messages, the participants and the pending requests as they were. -/
theorem binding_from_event (captured : FormData) (s : AppState) (d : RoomData)
    (w : BindingData) :
    ((onRoomCreated captured s d).roomId = d.roomId ∧
      (onRoomCreated captured s d).userId = d.userId ∧
      (onRoomCreated captured s d).username = d.username ∧
      (onRoomCreated captured s d).isCreator = d.isCreator) ∧
    ((onJoinApproved s d).roomId = d.roomId ∧ (onJoinApproved s d).userId = d.userId ∧
      (onJoinApproved s d).username = d.username ∧
      (onJoinApproved s d).isCreator = d.isCreator) ∧
    ((onWaitingForApproval s w).roomId = w.roomId ∧
      (onWaitingForApproval s w).userId = w.userId ∧
      (onWaitingForApproval s w).username = w.username ∧
      (onWaitingForApproval s w).isCreator = s.isCreator ∧
      (onWaitingForApproval s w).messages = s.messages ∧
      (onWaitingForApproval s w).users = s.users ∧
      (onWaitingForApproval s w).joinRequests = s.joinRequests) ∧
    (step s (Action.roomCreated d)).1 = onRoomCreated emptyForm s d ∧
    (step s (Action.joinApproved d)).1 = onJoinApproved s d ∧
    (step s (Action.waitingForApproval w)).1 = onWaitingForApproval s w :=
  ⟨⟨rfl, rfl, rfl, rfl⟩, ⟨rfl, rfl, rfl, rfl⟩, ⟨rfl, rfl, rfl, rfl, rfl, rfl, rfl⟩, rfl, rfl, rfl⟩

/-! ## Removing a participant (C17) -/

theorem step_users (s : AppState) (a : Action) :
    (step s a).1.users = s.users ∨
    (∃ l, a = Action.userList l ∧ (step s a).1.users = l) ∨
    RoomCleared (step s a).1 := by
  cases a with
  | userList l => exact Or.inr (Or.inl ⟨l, rfl, rfl⟩)
  | kicked m => exact Or.inr (Or.inr ⟨rfl, rfl, rfl, rfl, rfl, rfl, rfl, rfl⟩)
  | roomClosed m => exact Or.inr (Or.inr ⟨rfl, rfl, rfl, rfl, rfl, rfl, rfl, rfl⟩)
  | cancelRequest => exact Or.inr (Or.inr ⟨rfl, rfl, rfl, rfl, rfl, rfl, rfl, rfl⟩)
  | submitCreateRoom =>
      left; simp only [step, handleCreateRoom]; split <;> [rfl; (split <;> rfl)]
  | submitJoinRoom =>
      left; simp only [step, handleJoinRoom]; split <;> [rfl; (split <;> rfl)]
  | submitSendMessage => left; simp only [step, handleSendMessage]; split <;> rfl
  | approveUser u => left; simp only [step, handleApproveUser]; split <;> rfl
  | rejectUser u => left; simp only [step, handleRejectUser]; split <;> rfl
  | kickUser u confirm => left; simp only [step, handleKickUser]; split <;> rfl
  | leaveRoom confirm =>
      simp only [step, handleLeaveRoom]
      split
      · split
        · exact Or.inr (Or.inr ⟨rfl, rfl, rfl, rfl, rfl, rfl, rfl, rfl⟩)
        · exact Or.inl rfl
      · exact Or.inl rfl
  | copyRoomId ok => left; simp only [step, copyRoomId]; split <;> rfl
  | downloadChatArchive f g => left; simp only [step, downloadChatArchive]; split <;> rfl
  | _ => exact Or.inl rfl

/-- C17: with a socket present and the confirmation accepted, `handleKickUser` emits
the single event `kickUser` carrying the id passed in; with no socket or the
confirmation declined it emits nothing; in every case it returns the state
unchanged. Over all actions, the participant list after a step is the list before
it, or the list carried by a `userList` event, or the state has been reset. -/
theorem handleKickUser_frame (s : AppState) (u : String) (confirm : String → Bool) :
    ((s.socket ≠ none ∧ confirm "Remove this user from the room?" = true) →
      (handleKickUser s u confirm).2 = [Emit.kickUser u]) ∧
    ((s.socket = none ∨ confirm "Remove this user from the room?" = false) →
      (handleKickUser s u confirm).2 = []) ∧
    (handleKickUser s u confirm).1 = s ∧
    (∀ a : Action, (step s a).1.users = s.users ∨
      (∃ l, a = Action.userList l ∧ (step s a).1.users = l) ∨ RoomCleared (step s a).1) := by
  refine ⟨?_, ?_, ?_, step_users s⟩
  · rintro ⟨hs, hc⟩
    have hsome : s.socket.isSome = true := by
      cases h : s.socket with
      | none => exact absurd h hs
      | some k => rfl
    simp [handleKickUser, hsome, hc]
  · rintro (hs | hc)
    · simp [handleKickUser, hs]
    · simp [handleKickUser, hc]
  · unfold handleKickUser
    split <;> rfl

/-- Witness for C17: the administrator confirms the removal of `u3`; declining
emits nothing. -/
theorem handleKickUser_frame_witness :
    handleKickUser sameNameRoom "u3" (fun _ => true) = (sameNameRoom, [Emit.kickUser "u3"]) ∧
    handleKickUser sameNameRoom "u3" (fun _ => false) = (sameNameRoom, []) :=
  ⟨Prod.ext (handleKickUser_frame sameNameRoom "u3" (fun _ => true)).2.2.1
      ((handleKickUser_frame sameNameRoom "u3" (fun _ => true)).1 ⟨by decide, rfl⟩),
    Prod.ext (handleKickUser_frame sameNameRoom "u3" (fun _ => false)).2.2.1
      ((handleKickUser_frame sameNameRoom "u3" (fun _ => false)).2.1 (Or.inr rfl))⟩

/-! ## Sending a message (C18, C19) -/

theorem step_messages (s : AppState) (a : Action) :
    (step s a).1.messages = s.messages ∨
    (∃ m, a = Action.newMessage m ∧ (step s a).1.messages = s.messages ++ [m]) ∨
    (∃ history, a = Action.messageHistory history ∧ (step s a).1.messages = history) ∨
    RoomCleared (step s a).1 := by
  cases a with
  | newMessage m => exact Or.inr (Or.inl ⟨m, rfl, rfl⟩)
  | messageHistory history => exact Or.inr (Or.inr (Or.inl ⟨history, rfl, rfl⟩))
  | kicked m => exact Or.inr (Or.inr (Or.inr ⟨rfl, rfl, rfl, rfl, rfl, rfl, rfl, rfl⟩))
  | roomClosed m => exact Or.inr (Or.inr (Or.inr ⟨rfl, rfl, rfl, rfl, rfl, rfl, rfl, rfl⟩))
  | cancelRequest => exact Or.inr (Or.inr (Or.inr ⟨rfl, rfl, rfl, rfl, rfl, rfl, rfl, rfl⟩))
  | submitCreateRoom =>
      left; simp only [step, handleCreateRoom]; split <;> [rfl; (split <;> rfl)]
  | submitJoinRoom =>
      left; simp only [step, handleJoinRoom]; split <;> [rfl; (split <;> rfl)]
  | submitSendMessage => left; simp only [step, handleSendMessage]; split <;> rfl
  | approveUser u => left; simp only [step, handleApproveUser]; split <;> rfl
  | rejectUser u => left; simp only [step, handleRejectUser]; split <;> rfl
  | kickUser u confirm => left; simp only [step, handleKickUser]; split <;> rfl
  | leaveRoom confirm =>
      simp only [step, handleLeaveRoom]
      split
      · split
        · exact Or.inr (Or.inr (Or.inr ⟨rfl, rfl, rfl, rfl, rfl, rfl, rfl, rfl⟩))
        · exact Or.inl rfl
      · exact Or.inl rfl
  | copyRoomId ok => left; simp only [step, copyRoomId]; split <;> rfl
  | downloadChatArchive f g => left; simp only [step, downloadChatArchive]; split <;> rfl
  | _ => exact Or.inl rfl

theorem handleSendMessage_ready (s : AppState) (hd : trim s.newMessage ≠ "")
    (hs : s.socket ≠ none) :
    handleSendMessage s = ({ s with newMessage := "" }, [Emit.sendMessage (trim s.newMessage)]) := by
  unfold handleSendMessage
  rw [if_neg]
  simp [falsy_iff, hd, Option.isNone_iff_eq_none, hs]

theorem handleSendMessage_guard (s : AppState) (h : trim s.newMessage = "" ∨ s.socket = none) :
    handleSendMessage s = (s, []) := by
  unfold handleSendMessage
  rw [if_pos]
  simpa [falsy_iff, Option.isNone_iff_eq_none] using h

/-- C18: when the draft is non-empty after trimming and a socket is present,
`handleSendMessage` emits the single event `sendMessage` carrying the trimmed
draft and changes the state only by emptying the draft (the message list is left
as it was); it emits something exactly when the trimmed draft is non-empty and a
socket is present, whatever the connection flag and the view. Over all actions,
the message list after a step is the list before it, or that list with the
message of a `newMessage` event appended, or the list of a `messageHistory`
event, or the state has been reset. -/
theorem handleSendMessage_sends (s : AppState) :
    ((trim s.newMessage ≠ "" ∧ s.socket ≠ none) →
      handleSendMessage s =
        ({ s with newMessage := "" }, [Emit.sendMessage (trim s.newMessage)])) ∧
    ((handleSendMessage s).2 ≠ [] ↔ (trim s.newMessage ≠ "" ∧ s.socket ≠ none)) ∧
    (handleSendMessage s).1.messages = s.messages ∧
    (∀ a : Action, (step s a).1.messages = s.messages ∨
      (∃ m, a = Action.newMessage m ∧ (step s a).1.messages = s.messages ++ [m]) ∨
      (∃ history, a = Action.messageHistory history ∧ (step s a).1.messages = history) ∨
      RoomCleared (step s a).1) := by
  refine ⟨fun h => handleSendMessage_ready s h.1 h.2, ⟨fun h => ?_, fun h => ?_⟩, ?_,
    step_messages s⟩
  · by_contra hn
    have hg : trim s.newMessage = "" ∨ s.socket = none := by
      by_cases hd : trim s.newMessage = ""
      · exact Or.inl hd
      · by_cases hs : s.socket = none
        · exact Or.inr hs
        · exact absurd ⟨hd, hs⟩ hn
    rw [handleSendMessage_guard s hg] at h
    exact h rfl
  · rw [handleSendMessage_ready s h.1 h.2]
    simp
  · unfold handleSendMessage
    split <;> rfl

/-- Witness for C18: a client with a socket, not connected, in the home view, with
the draft ` hi `. -/
theorem handleSendMessage_sends_witness :
    handleSendMessage { initialState with socket := some 1, newMessage := " hi " } =
      ({ initialState with socket := some 1 }, [Emit.sendMessage "hi"]) :=
  ((handleSendMessage_sends { initialState with socket := some 1, newMessage := " hi " }).1
    (by decide)).trans (by decide)

theorem trimChars_replicate_a (n : Nat) :
    trimChars (List.replicate (n + 1) 'a') = List.replicate (n + 1) 'a' := by
  have hw : isWhiteSpace 'a' = false := by decide
  have hd : List.dropWhile isWhiteSpace (List.replicate (n + 1) 'a') =
      List.replicate (n + 1) 'a' := by
    rw [List.replicate_succ, List.dropWhile_cons, hw]
    rfl
  unfold trimChars
  rw [hd, List.reverse_replicate, hd, List.reverse_replicate]

theorem trim_length_le (t : String) : (trim t).length ≤ t.length := by
  show (trimChars t.data).length ≤ t.data.length
  unfold trimChars
  rw [List.length_reverse]
  calc (List.dropWhile isWhiteSpace (List.dropWhile isWhiteSpace t.data).reverse).length
      ≤ (List.dropWhile isWhiteSpace t.data).reverse.length :=
        (List.dropWhile_sublist isWhiteSpace).length_le
    _ = (List.dropWhile isWhiteSpace t.data).length := List.length_reverse _
    _ ≤ t.data.length := (List.dropWhile_sublist isWhiteSpace).length_le

theorem step_newMessage (s : AppState) (a : Action) :
    (step s a).1.newMessage = s.newMessage ∨ (step s a).1.newMessage = "" ∨
    (∃ v, a = Action.inputNewMessage v ∧ (step s a).1.newMessage = v) := by
  cases a with
  | inputNewMessage v => exact Or.inr (Or.inr ⟨v, rfl, rfl⟩)
  | submitCreateRoom =>
      left; simp only [step, handleCreateRoom]; split <;> [rfl; (split <;> rfl)]
  | submitJoinRoom =>
      left; simp only [step, handleJoinRoom]; split <;> [rfl; (split <;> rfl)]
  | submitSendMessage =>
      simp only [step, handleSendMessage]
      split
      · exact Or.inl rfl
      · exact Or.inr (Or.inl rfl)
  | approveUser u => left; simp only [step, handleApproveUser]; split <;> rfl
  | rejectUser u => left; simp only [step, handleRejectUser]; split <;> rfl
  | kickUser u confirm => left; simp only [step, handleKickUser]; split <;> rfl
  | leaveRoom confirm =>
      left; simp only [step, handleLeaveRoom]; split <;> [(split <;> rfl); rfl]
  | copyRoomId ok => left; simp only [step, copyRoomId]; split <;> rfl
  | downloadChatArchive f g => left; simp only [step, downloadChatArchive]; split <;> rfl
  | _ => exact Or.inl rfl

theorem step_sendMessage_payload (s : AppState) (a : Action) (m : String)
    (h : Emit.sendMessage m ∈ (step s a).2) : m = trim s.newMessage := by
  cases a with
  | submitSendMessage =>
      simp only [step, handleSendMessage] at h
      split at h
      · simp at h
      · simpa using h
  | submitJoinRoom =>
      simp only [step, handleJoinRoom] at h
      split at h
      · simp at h
      · split at h <;> simp at h
  | submitCreateRoom =>
      simp only [step, handleCreateRoom] at h
      split at h
      · simp at h
      · split at h <;> simp at h
  | approveUser x => simp only [step, handleApproveUser] at h; split at h <;> simp at h
  | rejectUser x => simp only [step, handleRejectUser] at h; split at h <;> simp at h
  | kickUser x confirm => simp only [step, handleKickUser] at h; split at h <;> simp at h
  | leaveRoom confirm =>
      simp only [step, handleLeaveRoom] at h
      split at h
      · split at h <;> simp at h
      · simp at h
  | _ => simp [step] at h

theorem run_sendMessage_bounded (as : List Action) (s : AppState)
    (hs : s.newMessage.length ≤ maxLength)
    (h : ∀ v, Action.inputNewMessage v ∈ as → v.length ≤ maxLength)
    (m : String) (hm : Emit.sendMessage m ∈ (run s as).2) : m.length ≤ maxLength := by
  induction as generalizing s with
  | nil => simp [run] at hm
  | cons a as ih =>
      simp only [run, List.mem_append] at hm
      rcases hm with hm | hm
      · rw [step_sendMessage_payload s a m hm]
        exact le_trans (trim_length_le _) hs
      · refine ih _ ?_ (fun v hv => h v (List.mem_cons_of_mem _ hv)) hm
        rcases step_newMessage s a with e | e | ⟨v, rfl, e⟩
        · rw [e]; exact hs
        · rw [e]; exact Nat.zero_le _
        · rw [e]; exact h v (List.mem_cons_self _ _)

/-- C19 (counterexample): a client with a socket whose draft holds 501 letters;
`handleSendMessage` emits `sendMessage` carrying all 501 characters, so an event
is emitted for a draft longer than the maximum and its message exceeds it. -/
theorem long_draft_is_sent :
    longDraft.newMessage.length = 501 ∧
    handleSendMessage longDraft =
      ({ longDraft with newMessage := "" }, [Emit.sendMessage longDraft.newMessage]) ∧
    (handleSendMessage longDraft).2 ≠ [] ∧
    ¬ (∀ m, Emit.sendMessage m ∈ (handleSendMessage longDraft).2 → m.length ≤ maxLength) := by
  have hlen : longDraft.newMessage.length = 501 := by
    show (List.replicate 501 'a').length = 501
    exact List.length_replicate _ _
  have htrim : trim longDraft.newMessage = longDraft.newMessage := by
    show String.mk (trimChars (List.replicate (500 + 1) 'a')) = _
    rw [trimChars_replicate_a]
    rfl
  have hne : trim longDraft.newMessage ≠ "" := by
    rw [htrim]
    intro e
    rw [e] at hlen
    exact absurd hlen (by decide)
  have hsend := handleSendMessage_ready longDraft hne (by decide)
  rw [htrim] at hsend
  refine ⟨hlen, hsend, by rw [hsend]; simp, fun hall => ?_⟩
  have := hall longDraft.newMessage (by rw [hsend]; exact List.mem_singleton.2 rfl)
  rw [hlen] at this
  exact absurd this (by decide)

/-- C19 (amended): `handleSendMessage` has no length check of its own; the bound
comes from the message input. Along every sequence of actions in which each value
delivered by the message input has at most `maxLength` (500) characters, every
`sendMessage` event emitted carries at most `maxLength` characters; and
`handleSendMessage` never changes the message list. -/
theorem sendMessage_within_maxLength (as : List Action)
    (h : ∀ v, Action.inputNewMessage v ∈ as → v.length ≤ maxLength) :
    (∀ m, Emit.sendMessage m ∈ (run initialState as).2 → m.length ≤ maxLength) ∧
    (∀ s : AppState, (handleSendMessage s).1.messages = s.messages) := by
  refine ⟨fun m hm => run_sendMessage_bounded as initialState (Nat.zero_le _) h m hm,
    fun s => ?_⟩
  unfold handleSendMessage
  split <;> rfl

/-- Witness for C19: the draft ` hi ` typed into the message input and sent. -/
theorem sendMessage_within_maxLength_witness :
    (run initialState
      [Action.mount 1, Action.inputNewMessage " hi ", Action.submitSendMessage]).2 =
      [Emit.sendMessage "hi"] ∧
    "hi".length ≤ maxLength :=
  ⟨by decide,
    (sendMessage_within_maxLength
      [Action.mount 1, Action.inputNewMessage " hi ", Action.submitSendMessage]
      (by
        intro v hv
        simp at hv
        subst hv
        decide)).1 "hi" (by decide)⟩

/-! ## The room name after creating a room (C20) -/

/-- C20 (the code at the failing input): a connected creator submits the form
`alice`, `standup`; the client emits `createRoom` with room name `standup`, the
form still holds `standup`, and after `roomCreated` is handled the client is in the
chat view with `roomName` empty. The handler was registered by the first render,
whose form is empty: in every state `roomCreated` sets `roomName` to the empty
string. -/
theorem roomName_lost_after_create :
    (run initialState createStandup).2 = [Emit.createRoom "alice" "standup"] ∧
    (run initialState createStandup).1.formData.roomName = "standup" ∧
    (run initialState createStandup).1.currentView = "chat" ∧
    (run initialState createStandup).1.roomId = "abc123" ∧
    (run initialState createStandup).1.roomName = "" ∧
    (∀ (s : AppState) (d : RoomData), (step s (Action.roomCreated d)).1.roomName = "") := by
  refine ⟨by decide, by decide, by decide, by decide, by decide, fun s d => rfl⟩

/-! ## The view (C21, C22, C23) -/

theorem step_currentView (s : AppState) (a : Action) :
    (step s a).1.currentView = s.currentView ∨ (step s a).1.currentView = "home" ∨
    (step s a).1.currentView = "waiting" ∨ (step s a).1.currentView = "chat" := by
  cases a with
  | roomCreated d => exact Or.inr (Or.inr (Or.inr rfl))
  | joinApproved d => exact Or.inr (Or.inr (Or.inr rfl))
  | waitingForApproval d => exact Or.inr (Or.inr (Or.inl rfl))
  | joinRejected m => exact Or.inr (Or.inl rfl)
  | kicked m => exact Or.inr (Or.inl rfl)
  | roomClosed m => exact Or.inr (Or.inl rfl)
  | cancelRequest => exact Or.inr (Or.inl rfl)
  | submitCreateRoom =>
      left; simp only [step, handleCreateRoom]; split <;> [rfl; (split <;> rfl)]
  | submitJoinRoom =>
      left; simp only [step, handleJoinRoom]; split <;> [rfl; (split <;> rfl)]
  | submitSendMessage => left; simp only [step, handleSendMessage]; split <;> rfl
  | approveUser u => left; simp only [step, handleApproveUser]; split <;> rfl
  | rejectUser u => left; simp only [step, handleRejectUser]; split <;> rfl
  | kickUser u confirm => left; simp only [step, handleKickUser]; split <;> rfl
  | leaveRoom confirm =>
      simp only [step, handleLeaveRoom]
      split
      · split
        · exact Or.inr (Or.inl rfl)
        · exact Or.inl rfl
      · exact Or.inl rfl
  | copyRoomId ok => left; simp only [step, copyRoomId]; split <;> rfl
  | downloadChatArchive f g => left; simp only [step, downloadChatArchive]; split <;> rfl
  | _ => exact Or.inl rfl

theorem run_currentView (as : List Action) (s : AppState)
    (h : s.currentView = "home" ∨ s.currentView = "waiting" ∨ s.currentView = "chat") :
    (run s as).1.currentView = "home" ∨ (run s as).1.currentView = "waiting" ∨
      (run s as).1.currentView = "chat" := by
  induction as generalizing s with
  | nil => exact h
  | cons a as ih =>
      apply ih
      rcases step_currentView s a with e | e | e | e
      · rw [e]; exact h
      · exact Or.inl e
      · exact Or.inr (Or.inl e)
      · exact Or.inr (Or.inr e)

theorem viewBranch_of_view (s : AppState)
    (h : s.currentView = "home" ∨ s.currentView = "waiting" ∨ s.currentView = "chat") :
    viewBranch s = some s.currentView := by
  rcases h with e | e | e <;> simp [viewBranch, e]

/-- C21: in every state, `roomCreated` and `joinApproved` set the view to `chat`,
`waitingForApproval` sets it to `waiting`, and `joinRejected`, `kicked` and
`roomClosed` set it to `home`; `newMessage`, `messageHistory`, `userList`,
`userJoined`, `userLeft`, `joinRequest` and `error` leave it unchanged. A client
that cancelled its request (home view) and then receives `joinApproved` is in the
chat view. -/
theorem view_follows_events (s : AppState) (d : RoomData) (w : BindingData)
    (text : String) (m : Message) (history : List Message) (l : List User)
    (r : JoinRequest) :
    (step s (Action.roomCreated d)).1.currentView = "chat" ∧
    (step s (Action.joinApproved d)).1.currentView = "chat" ∧
    (step s (Action.waitingForApproval w)).1.currentView = "waiting" ∧
    (step s (Action.joinRejected text)).1.currentView = "home" ∧
    (step s (Action.kicked text)).1.currentView = "home" ∧
    (step s (Action.roomClosed text)).1.currentView = "home" ∧
    (step s (Action.newMessage m)).1.currentView = s.currentView ∧
    (step s (Action.messageHistory history)).1.currentView = s.currentView ∧
    (step s (Action.userList l)).1.currentView = s.currentView ∧
    (step s (Action.userJoined text)).1.currentView = s.currentView ∧
    (step s (Action.userLeft text)).1.currentView = s.currentView ∧
    (step s (Action.joinRequest r)).1.currentView = s.currentView ∧
    (step s (Action.error text)).1.currentView = s.currentView ∧
    (run initialState (cancelThenApproved.take 4)).1.currentView = "home" ∧
    (run initialState cancelThenApproved).1.currentView = "chat" := by
  refine ⟨rfl, rfl, rfl, rfl, rfl, rfl, rfl, rfl, rfl, rfl, rfl, rfl, rfl, by decide, by decide⟩

/-- C22: in the waiting view the Cancel Request button is rendered, and pressing it
emits nothing, sets the view to `home` and clears the room state; apart from the
view, the state after it is `resetState` of the state before it. -/
theorem cancelRequest_local (s : AppState) (h : s.currentView = "waiting") :
    offered s Action.cancelRequest = true ∧
    (step s Action.cancelRequest).2 = [] ∧
    (step s Action.cancelRequest).1.currentView = "home" ∧
    RoomCleared (step s Action.cancelRequest).1 ∧
    (step s Action.cancelRequest).1 = { resetState s with currentView := "home" } := by
  refine ⟨?_, rfl, rfl, ⟨rfl, rfl, rfl, rfl, rfl, rfl, rfl, rfl⟩, rfl⟩
  simp [offered, Action.control, render, h]

/-- Witness for C22: the client waiting as `bob` in room `abc123` cancels. -/
theorem cancelRequest_local_witness :
    waitingBob.currentView = "waiting" ∧
    step waitingBob Action.cancelRequest = (initialState, []) :=
  ⟨rfl,
    Prod.ext ((cancelRequest_local waitingBob rfl).2.2.2.2.trans (by decide))
      (cancelRequest_local waitingBob rfl).2.1⟩

/-- C23: the first render is in the `home` view, every step leaves the view as it
was or sets it to `home`, `waiting` or `chat`, and so after every sequence of
actions the view is one of the three, the branch of `App` that returns is the one
of that view, and it is not the final `return null`. -/
theorem view_is_one_of_three (as : List Action) :
    initialState.currentView = "home" ∧
    (∀ (s : AppState) (a : Action),
      (step s a).1.currentView = s.currentView ∨ (step s a).1.currentView = "home" ∨
      (step s a).1.currentView = "waiting" ∨ (step s a).1.currentView = "chat") ∧
    ((run initialState as).1.currentView = "home" ∨
      (run initialState as).1.currentView = "waiting" ∨
      (run initialState as).1.currentView = "chat") ∧
    viewBranch (run initialState as).1 = some (run initialState as).1.currentView ∧
    viewBranch (run initialState as).1 ≠ none := by
  have hv := run_currentView as initialState (Or.inl rfl)
  have hb := viewBranch_of_view _ hv
  refine ⟨rfl, step_currentView, hv, hb, ?_⟩
  rw [hb]
  exact Option.some_ne_none _

/-! ## What `resetState` writes (C24) -/

/-- C24: `resetState` empties `roomId`, `userId`, `username` and `roomName`, sets
`isCreator` and `showSettings` to false, empties messages, participants and
pending requests and the three form fields, and keeps the socket, the
connection flag, the view, the error and success messages, the copied flag and
the draft; applying it twice is applying it once. -/
theorem resetState_frame (s : AppState) :
    resetState s =
      { socket := s.socket
        isConnected := s.isConnected
        currentView := s.currentView
        error := s.error
        success := s.success
        showSettings := false
        roomIdCopied := s.roomIdCopied
        roomId := ""
        userId := ""
        username := ""
        isCreator := false
        roomName := ""
        messages := []
        newMessage := s.newMessage
        users := []
        joinRequests := []
        formData := { username := "", roomName := "", joinRoomId := "" } } ∧
    resetState (resetState s) = resetState s :=
  ⟨rfl, rfl⟩

end RedChat
